import Mathlib

/-!
Verification of the GiSTXConfig data-dictionary compiler.

The development shallowly embeds the compiler's core: the per-row parser and
checks of `excel_reader.py` (`ExcelReader.create_question_list` and its
helpers), the whole-sheet semantic validation passes, the markup emitter of
`xml_generator.py` (`XmlGenerator.write_xml`), and the run-level two-phase
gate of `processor.py` (`GiSTXProcessor.run`).

Python strings become `List Char`; the mutable diagnostics log and error
flags become an explicitly threaded `Res` value (log lines plus an error
flag); Python exceptions in the emitter become `Option`.  Python regular
expressions used by the reader are modelled by explicit matchers that follow
the leftmost, greedy-with-backtracking, ordered-alternation semantics of the
`re` module on the concrete patterns of the source.  Character classes
(`isdigit`, `isalnum`, `\w`, `lower`) are modelled at ASCII granularity.
-/

namespace GiSTX

/-- Python strings are modelled as lists of characters. -/
abbrev Str := List Char

/-- Embed a Lean string literal into the model's string type. -/
def str (s : String) : Str := s.data

/-- Python's notion of whitespace for `str.strip()` / `\s`. -/
def isPyWs (c : Char) : Bool :=
  c = ' ' || c = '\t' || c = '\n' || c = '\r' || c = '\x0b' || c = '\x0c'

/-- `str.strip()`: drop whitespace from both ends. -/
def pyStrip (s : Str) : Str :=
  ((s.dropWhile isPyWs).reverse.dropWhile isPyWs).reverse

/-- `str.lower()` (ASCII). -/
def pyLower (s : Str) : Str := s.map Char.toLower

/-- `\w` of Python's `re` module (ASCII model): letters, digits, underscore. -/
def isWordChar (c : Char) : Bool := c.isAlphanum || c = '_'

/-- Splitting of `ExcelReader._split_lines`: `re.split(r"\r\n|\n|\r", text)`
before the non-empty filter. -/
def splitLinesRaw : Str → Str
  → List Str
  | [], acc => [acc.reverse]
  | '\r' :: '\n' :: rest, acc => acc.reverse :: splitLinesRaw rest []
  | '\r' :: rest, acc => acc.reverse :: splitLinesRaw rest []
  | '\n' :: rest, acc => acc.reverse :: splitLinesRaw rest []
  | c :: rest, acc => splitLinesRaw rest (c :: acc)

/-- `ExcelReader._split_lines`: split on newlines, keep non-empty lines. -/
def splitLines (s : Str) : List Str := (splitLinesRaw s []).filter (· ≠ [])

/-- Python `s.split(sep)` for a one-character separator (keeps empty parts). -/
def pySplitChar (sep : Char) : Str → List Str
  | [] => [[]]
  | c :: rest =>
    if c = sep then [] :: pySplitChar sep rest
    else
      match pySplitChar sep rest with
      | [] => [[c]]
      | h :: t => (c :: h) :: t

/-- Python `s.split(sep, 1)` for a one-character separator. -/
def pySplitFirst (sep : Char) : Str → List Str
  | [] => [[]]
  | c :: rest =>
    if c = sep then [[], rest]
    else
      match pySplitFirst sep rest with
      | [] => [[c]]
      | h :: t => (c :: h) :: t

/-- Python `s.find(c)`; `none` models `-1`. -/
def pyFind (sep : Char) (s : Str) : Option Nat := s.findIdx? (· = sep)

/-- Python substring containment `pat in s`. -/
def isSubstr (pat s : Str) : Bool :=
  (List.range (s.length + 1)).any (fun i => pat.isPrefixOf (s.drop i))

/-- Python slice `s[a:b]` for non-negative bounds. -/
def pySlice (a b : Nat) (s : Str) : Str := (s.take b).drop a

/-- Python slice `s[a:]` for a non-negative start. -/
def pySliceFrom (a : Nat) (s : Str) : Str := s.drop a

/-- The positions of the characters satisfying `p`, counting from `i`. -/
def idxWhereFrom (p : Char → Bool) : Nat → Str → List Nat
  | _, [] => []
  | i, c :: rest =>
    if p c then i :: idxWhereFrom p (i + 1) rest else idxWhereFrom p (i + 1) rest

/-- `[i for i, ch in enumerate(s) if ch == " "]` of the skip-line scanners. -/
def spaceIndices (s : Str) : List Nat := idxWhereFrom (· = ' ') 0 s

/-- Fuel-driven core of `pyReplace` (each step consumes at least one
character, so `s.length` fuel always suffices). -/
def pyReplaceF (pat repl : Str) : Nat → Str → Str
  | _, [] => []
  | 0, s => s
  | fuel + 1, c :: rest =>
    if pat ≠ [] && pat.isPrefixOf (c :: rest) then
      repl ++ pyReplaceF pat repl fuel ((c :: rest).drop pat.length)
    else
      c :: pyReplaceF pat repl fuel rest

/-- Python `s.replace(old, new)`: replace every non-overlapping occurrence,
scanning left to right, without rescanning the replacement. -/
def pyReplace (pat repl : Str) (s : Str) : Str := pyReplaceF pat repl s.length s

/-- Fuel-driven core of `pySplitStr`. -/
def pySplitStrF (sep : Str) : Nat → Str → List Str
  | _, [] => [[]]
  | 0, s => [s]
  | fuel + 1, c :: rest =>
    if sep ≠ [] && sep.isPrefixOf (c :: rest) then
      [] :: pySplitStrF sep fuel ((c :: rest).drop sep.length)
    else
      match pySplitStrF sep fuel rest with
      | [] => [[c]]
      | h :: t => (c :: h) :: t

/-- Python `s.split(sep)` for a multi-character separator (keeps empties). -/
def pySplitStr (sep : Str) (s : Str) : List Str := pySplitStrF sep s.length s

/-- Lexicographic comparison of strings by character code (Python `<`). -/
def strLt : Str → Str → Bool
  | [], [] => false
  | [], _ :: _ => true
  | _ :: _, [] => false
  | a :: as, b :: bs =>
    if a.val < b.val then true
    else if b.val < a.val then false
    else strLt as bs

/-- Insert into a sorted list of strings. -/
def insertStr (x : Str) : List Str → List Str
  | [] => [x]
  | y :: ys => if strLt x y then x :: y :: ys else y :: insertStr x ys

/-- Python `sorted` on a list of strings. -/
def sortStrs : List Str → List Str
  | [] => []
  | x :: xs => insertStr x (sortStrs xs)

/-- Deduplication core carrying the names already seen. -/
def dedupFirstAux : List Str → List Str → List Str
  | [], _ => []
  | x :: xs, seen =>
    if seen.contains x then dedupFirstAux xs seen
    else x :: dedupFirstAux xs (x :: seen)

/-- Deduplicate keeping first occurrences (models iterating a Python set
built from a list; the model fixes first-occurrence order). -/
def dedupFirst (l : List Str) : List Str := dedupFirstAux l []

/-- Python `sep.join(parts)`. -/
def joinWith (sep : Str) : List Str → Str
  | [] => []
  | [x] => x
  | x :: y :: rest => x ++ sep ++ joinWith sep (y :: rest)

/-! ## The data model (`models.py`) -/

/-- `ResponseSourceType` of `models.py`. -/
inductive ResponseSourceType where
  | STATIC
  | CSV
  | DATABASE
deriving DecidableEq

/-- `CalculationType` of `models.py`. -/
inductive CalculationType where
  | NONE
  | QUERY
  | CASE
  | CONSTANT
  | LOOKUP
  | MATH
  | CONCAT
  | AGE_FROM_DATE
  | AGE_AT_DATE
  | DATE_OFFSET
  | DATE_DIFF
deriving DecidableEq

/-- `Filter` of `models.py`. -/
structure Filter where
  column : Str
  value : Str
  operator : Str
deriving DecidableEq

/-- `CalculationParameter` of `models.py`. -/
structure CalculationParameter where
  name : Str
  fieldName : Str
deriving DecidableEq

/-- `CalculationPart` of `models.py` (recursive through `parts`). -/
inductive CalculationPart where
  | mk
      (type : CalculationType)
      (constantValue : Str)
      (lookupField : Str)
      (querySql : Str)
      (queryParameters : List CalculationParameter)
      (mathOperator : Str)
      (parts : List CalculationPart)
      (concatSeparator : Str)

/-- The `type` field of a `CalculationPart`. -/
def CalculationPart.type : CalculationPart → CalculationType
  | .mk t _ _ _ _ _ _ _ => t

/-- The `constantValue` field of a `CalculationPart`. -/
def CalculationPart.constantValue : CalculationPart → Str
  | .mk _ v _ _ _ _ _ _ => v

/-- The `lookupField` field of a `CalculationPart`. -/
def CalculationPart.lookupField : CalculationPart → Str
  | .mk _ _ f _ _ _ _ _ => f

/-- The `querySql` field of a `CalculationPart`. -/
def CalculationPart.querySql : CalculationPart → Str
  | .mk _ _ _ s _ _ _ _ => s

/-- The `queryParameters` field of a `CalculationPart`. -/
def CalculationPart.queryParameters : CalculationPart → List CalculationParameter
  | .mk _ _ _ _ ps _ _ _ => ps

/-- The `mathOperator` field of a `CalculationPart`. -/
def CalculationPart.mathOperator : CalculationPart → Str
  | .mk _ _ _ _ _ op _ _ => op

/-- The `parts` field of a `CalculationPart`. -/
def CalculationPart.parts : CalculationPart → List CalculationPart
  | .mk _ _ _ _ _ _ ps _ => ps

/-- The `concatSeparator` field of a `CalculationPart`. -/
def CalculationPart.concatSeparator : CalculationPart → Str
  | .mk _ _ _ _ _ _ _ s => s

/-- A `CalculationPart` with the defaults of `models.py`, a given type, and
one payload field set, as built by `_parse_result_value`/`_parse_part_line`. -/
def leafPart (t : CalculationType) (constantValue lookupField querySql : Str) :
    CalculationPart :=
  .mk t constantValue lookupField querySql [] [] [] []

/-- `CaseCondition` of `models.py`. -/
structure CaseCondition where
  field : Str
  operator : Str
  value : Str
  result : Option CalculationPart

/-- `Question` of `models.py`, with the same defaults. -/
structure Question where
  fieldName : Str := []
  questionType : Str := []
  fieldType : Str := []
  questionText : Str := []
  maxCharacters : Str := []
  responses : Str := []
  responseSourceType : ResponseSourceType := .STATIC
  responseSourceFile : Str := []
  responseSourceTable : Str := []
  responseFilters : List Filter := []
  responseDisplayColumn : Str := []
  responseValueColumn : Str := []
  responseDistinct : Option Bool := none
  responseEmptyMessage : Str := []
  responseDontKnowValue : Str := []
  responseDontKnowLabel : Str := []
  responseNotInListValue : Str := []
  responseNotInListLabel : Str := []
  calculationType : CalculationType := .NONE
  calculationQuerySql : Str := []
  calculationQueryParameters : List CalculationParameter := []
  calculationCaseConditions : List CaseCondition := []
  calculationCaseElse : Option CalculationPart := none
  calculationConstantValue : Str := []
  calculationLookupField : Str := []
  calculationMathOperator : Str := []
  calculationMathParts : List CalculationPart := []
  calculationConcatSeparator : Str := []
  calculationConcatParts : List CalculationPart := []
  calculationUnit : Str := []
  lowerRange : Str := []
  upperRange : Str := []
  logicChecks : List Str := []
  uniqueCheckMessage : Str := []
  dontKnow : Str := []
  refuse : Str := []
  na : Str := []
  skip : Str := []
  mask : Str := []

/-! ## Diagnostics plumbing

`ExcelReader` appends messages to `self.logstring` and raises
`errorsEncountered` / `worksheetErrorsEncountered` on `_error` (warnings only
append).  Within one `create_question_list` call on a fresh reader the two
flags coincide, so a check's effect is a list of log lines plus one error
flag, and sequencing is concatenation. -/

/-- The observable effect of a reader step: appended log lines and whether
`_error` fired. -/
structure Res where
  log : List Str
  err : Bool
deriving DecidableEq

/-- The empty effect. -/
def Res.nil : Res := ⟨[], false⟩

/-- `self._error(msg)`. -/
def rerr (m : Str) : Res := ⟨[m], true⟩

/-- `self.logstring.append(msg)` without raising the error flags. -/
def rwarn (m : Str) : Res := ⟨[m], false⟩

instance : Append Res := ⟨fun a b => ⟨a.log ++ b.log, a.err || b.err⟩⟩

/-- Sequence a list of effects. -/
def seqRes (l : List Res) : Res := l.foldr (· ++ ·) Res.nil

theorem Res.append_log (a b : Res) : (a ++ b).log = a.log ++ b.log := rfl

theorem Res.append_err (a b : Res) : (a ++ b).err = (a.err || b.err) := rfl

/-! ## Per-row checks of `ExcelReader` -/

/-- `ExcelReader.VALID_QUESTION_TYPES`. -/
def VALID_QUESTION_TYPES : List Str :=
  [str "radio", str "combobox", str "checkbox", str "text", str "date",
   str "information", str "automatic", str "button"]

/-- `ExcelReader.VALID_FIELD_TYPES`. -/
def VALID_FIELD_TYPES : List Str :=
  [str "text", str "datetime", str "date", str "phone_num", str "integer",
   str "text_integer", str "text_decimal", str "text_id", str "n/a", str "hourmin"]

/-- `ExcelReader.BUILT_IN_AUTO_FIELDS`. -/
def BUILT_IN_AUTO_FIELDS : List Str :=
  [str "starttime", str "stoptime", str "uniqueid", str "swver",
   str "survey_id", str "lastmod"]

/-- `ExcelReader.LOGIC_KEYWORDS`. -/
def LOGIC_KEYWORDS : List Str := [str "and", str "or", str "not"]

/-- The diagnostic of `_check_field_name` for an empty name. -/
def msgFieldNameEmpty (ws : Str) : Str :=
  str "ERROR - FieldName: " ++ ws ++ str " has an empty FieldName"

/-- The diagnostic of `_check_field_name` for a leading digit. -/
def msgFieldNameDigit (ws name : Str) : Str :=
  str "ERROR - FieldName: " ++ ws ++
    str " has a FieldName that starts with a number: " ++ name

/-- The diagnostic of `_check_field_name` for a disallowed character. -/
def msgFieldNameInvalidChar (ws name : Str) : Str :=
  str "ERROR - FieldName: " ++ ws ++
    str " has an invalid FieldName.  Only letters, digits, and underscores are allowed: " ++
    name

/-- The diagnostic of `_check_field_name` for a name not all lowercase. -/
def msgFieldNameNotLower (ws name : Str) : Str :=
  str "ERROR - FieldName: " ++ ws ++
    str " has a FieldName that is not all lowercase: " ++ name

/-- The diagnostic of `_check_field_name` for a leading underscore. -/
def msgFieldNameUnderscore (ws name : Str) : Str :=
  str "ERROR - FieldName: " ++ ws ++
    str " has a FieldName that starts with an underscore: " ++ name

/-- The diagnostic of `_check_field_name` for a name containing a space. -/
def msgFieldNameSpace (ws name : Str) : Str :=
  str "ERROR - FieldName: " ++ ws ++
    str " has a FieldName that contains a space: " ++ name

/-- The leading-digit rule of `_check_field_name` (`fieldname[0].isdigit()`). -/
def startsWithDigit (name : Str) : Bool := (name.headD '\x00').isDigit

/-- The disallowed-character rule of `_check_field_name`
(`any((not c.isalnum()) and c != "_" for c in fieldname)`). -/
def hasDisallowedChar (name : Str) : Bool := name.any (fun c => !c.isAlphanum && c ≠ '_')

/-- The lowercase rule of `_check_field_name` (`fieldname != fieldname.lower()`). -/
def notAllLowercase (name : Str) : Bool := name ≠ pyLower name

/-- The leading-underscore rule of `_check_field_name` (`fieldname[0] == "_"`). -/
def startsWithUnderscore (name : Str) : Bool := name.headD '\x00' = '_'

/-- The space rule of `_check_field_name` (`" " in fieldname`). -/
def containsSpace (name : Str) : Bool := name.contains ' '

/-- `ExcelReader._check_field_name` (the `if`/`elif` chain fires at most one
diagnostic, in this textual order). -/
def checkFieldName (ws name : Str) : Res :=
  if name = [] then rerr (msgFieldNameEmpty ws)
  else if startsWithDigit name then rerr (msgFieldNameDigit ws name)
  else if hasDisallowedChar name then rerr (msgFieldNameInvalidChar ws name)
  else if notAllLowercase name then rerr (msgFieldNameNotLower ws name)
  else if startsWithUnderscore name then rerr (msgFieldNameUnderscore ws name)
  else if containsSpace name then rerr (msgFieldNameSpace ws name)
  else Res.nil

/-- `NUMERIC_ONLY_RE.fullmatch` (`^\d+$`). -/
def numericOnly (s : Str) : Bool := s ≠ [] && s.all Char.isDigit

/-- Numeric value of a digit string (`int`). -/
def strToNat (s : Str) : Nat := s.foldl (fun n c => n * 10 + (c.toNat - 48)) 0

/-- `ExcelReader._check_max_chars_value`. -/
def checkMaxCharsValue (ws maxChars fieldname : Str) : Res :=
  let numeric := if maxChars.headD '\x00' = '=' then maxChars.drop 1 else maxChars
  if !numericOnly numeric then
    rerr (str "ERROR - MaxCharacters: FieldName '" ++ fieldname ++
      str "' in worksheet '" ++ ws ++
      str "' has a non-numeric value for MaxCharacters: " ++ maxChars)
  else
    let num := strToNat numeric
    if num < 1 || num > 2000 then
      rerr (str "ERROR - MaxCharacters: FieldName '" ++ fieldname ++
        str "' in worksheet '" ++ ws ++
        str "' has a MaxCharacters value that is out of range (1 to 2000): " ++ maxChars)
    else Res.nil

/-- The message of the static-response checks for a malformed line. -/
def msgStaticFormat (ws fieldname response : Str) : Str :=
  str "ERROR - Responses: Invalid static radio button options for '" ++ fieldname ++
    str "' in table '" ++ ws ++ str "'. Expected format 'number:Statement', found '" ++
    response ++ str "'."

/-- The loop over static response lines inside `_check_question_field_type`
(the first violation stops the scan of the remaining lines). -/
def staticResponsesLoop (ws fieldname : Str) (seen : List Str) : List Str → Res
  | [] => Res.nil
  | response :: rest =>
    match pyFind ':' response with
    | none => rerr (msgStaticFormat ws fieldname response)
    | some index =>
      if (pySplitChar ':' response).length ≠ 2 then
        rerr (msgStaticFormat ws fieldname response)
      else
        let key := response.take index
        let seen' := seen ++ [key]
        let duplicates := sortStrs (dedupFirst (seen'.filter (fun k => seen'.count k > 1)))
        if (dedupFirst seen').length ≠ seen'.length then
          rerr (str "ERROR - Responses: The Responses for FieldName '" ++ fieldname ++
            str "' in table '" ++ ws ++ str "' has duplicates " ++ joinWith (str ",") duplicates)
        else if response.headD '\x00' = ' ' then
          rerr (str "ERROR - Responses: Invalid static radio button options for '" ++
            fieldname ++ str "' in table '" ++ ws ++ str "'. Please remove leading spaces.")
        else if isSubstr (str ": ") response then
          rerr (str "ERROR - Responses: Invalid static radio button options for '" ++
            fieldname ++ str "' in table '" ++ ws ++
            str "'. Please remove space after the colon (:) for static responses.")
        else staticResponsesLoop ws fieldname seen' rest

/-- `ExcelReader._check_question_field_type`. -/
def checkQuestionFieldType (q : Question) (ws : Str) : Res :=
  let questiontype := q.questionType
  let fieldtype := q.fieldType
  let fieldname := q.fieldName
  (if !VALID_QUESTION_TYPES.contains questiontype then
    rerr (str "ERROR - QuestionType: The QuestionType " ++ questiontype ++
      str " for FieldName '" ++ fieldname ++ str "' in table '" ++ ws ++
      str "' is not among the predefined list.")
   else Res.nil) ++
  (if !VALID_FIELD_TYPES.contains fieldtype then
    rerr (str "ERROR - FieldType: The FieldType '" ++ fieldtype ++
      str "' for FieldName '" ++ fieldname ++ str "' in table '" ++ ws ++
      str "' is not among the predefined list.")
   else Res.nil) ++
  (if questiontype = str "radio" && fieldtype ≠ str "integer" then
    rerr (str "ERROR - FieldType: The FieldType for FieldName '" ++ fieldname ++
      str "' in table '" ++ ws ++ str "' must be integer when the QuestionType is 'radio'.")
   else Res.nil) ++
  (if questiontype = str "checkbox" && fieldtype ≠ str "text" then
    rerr (str "ERROR - FieldType: The FieldType for FieldName '" ++ fieldname ++
      str "' in table '" ++ ws ++ str "' must be text when the QuestionType is 'checkbox'.")
   else Res.nil) ++
  (if questiontype = str "date" && !(fieldtype = str "date" || fieldtype = str "datetime") then
    rerr (str "ERROR - FieldType: The FieldType for FieldName '" ++ fieldname ++
      str "' in table '" ++ ws ++
      str "' must be date when the QuestionType is 'date' or 'datetime'.")
   else Res.nil) ++
  (if (questiontype = str "radio" || questiontype = str "checkbox")
      && q.responseSourceType = ResponseSourceType.STATIC && q.responses ≠ [] then
    staticResponsesLoop ws fieldname [] (splitLines q.responses)
   else Res.nil)

/-- `DECIMAL_RE.fullmatch` (`^\d+(\.\d+)?$`). -/
def decimalMatch (s : Str) : Bool :=
  let intPart := s.takeWhile Char.isDigit
  let rest := s.dropWhile Char.isDigit
  intPart ≠ [] &&
    (rest = [] ||
      (rest.headD '\x00' = '.' && rest.drop 1 ≠ [] && (rest.drop 1).all Char.isDigit))

/-- `ExcelReader._check_numeric_range`. -/
def checkNumericRange (ws value fieldname rangeName : Str) : Res :=
  if !decimalMatch value then
    rerr (str "ERROR - " ++ rangeName ++ str ": FieldName '" ++ fieldname ++
      str "' in worksheet '" ++ ws ++ str "' has a non-numeric value for " ++
      rangeName ++ str ": " ++ value)
  else Res.nil

/-- `DATE_RANGE_RE.fullmatch` (`^([+-])(\d+)([dwmy])$`). -/
def dateRangeMatch (s : Str) : Bool :=
  match s with
  | [] => false
  | c :: rest =>
    (c = '+' || c = '-') &&
    (let digits := rest.takeWhile Char.isDigit
     let tail := rest.dropWhile Char.isDigit
     digits ≠ [] &&
       (tail.length = 1 &&
         (tail.headD '\x00' = 'd' || tail.headD '\x00' = 'w' ||
          tail.headD '\x00' = 'm' || tail.headD '\x00' = 'y')))

/-- `HARDCODED_DATE_RE.fullmatch` (`^\d{4}-\d{2}-\d{2}$`). -/
def hardcodedDateMatch (s : Str) : Bool :=
  s.length = 10 && (s.take 4).all Char.isDigit && s.getD 4 '\x00' = '-' &&
    (pySlice 5 7 s).all Char.isDigit && s.getD 7 '\x00' = '-' &&
    (pySlice 8 10 s).all Char.isDigit

/-- Gregorian leap year, as `datetime` uses. -/
def isLeapYear (y : Nat) : Bool := y % 4 = 0 && (y % 100 ≠ 0 || y % 400 = 0)

/-- Days in a month of the proleptic Gregorian calendar. -/
def daysInMonth (y m : Nat) : Nat :=
  if m = 2 then (if isLeapYear y then 29 else 28)
  else if m = 4 || m = 6 || m = 9 || m = 11 then 30
  else 31

/-- Whether `datetime.strptime(s, "%Y-%m-%d")` succeeds, for an `s` already
matching `HARDCODED_DATE_RE` (year 0 and invalid month/day raise). -/
def strptimeValidYmd (s : Str) : Bool :=
  let y := strToNat (s.take 4)
  let m := strToNat (pySlice 5 7 s)
  let d := strToNat (pySlice 8 10 s)
  1 ≤ y && 1 ≤ m && m ≤ 12 && 1 ≤ d && d ≤ daysInMonth y m

/-- `ExcelReader._check_date_range` (the effect-free `ET.fromstring` probe of
the source is dropped). -/
def checkDateRange (ws value fieldname rangeName : Str) : Res :=
  if value = str "-9" then
    rerr (str "ERROR - " ++ rangeName ++ str ": FieldName '" ++ fieldname ++
      str "' in worksheet '" ++ ws ++ str "' has a missing value for " ++ rangeName)
  else if value = str "0" || value = str "+0d" || value = str "-0d" then Res.nil
  else if dateRangeMatch value then Res.nil
  else if hardcodedDateMatch value then
    if strptimeValidYmd value then Res.nil
    else
      rerr (str "ERROR - " ++ rangeName ++ str ": FieldName '" ++ fieldname ++
        str "' in worksheet '" ++ ws ++ str "' has an invalid date value: " ++ value)
  else
    rerr (str "ERROR - " ++ rangeName ++ str ": FieldName '" ++ fieldname ++
      str "' in worksheet '" ++ ws ++ str "' has an invalid format for " ++
      rangeName ++ str ": " ++ value)

/-- `ExcelReader._check_logic_check_syntax`. -/
def checkLogicCheckSyntax (ws logicCheck fieldname : Str) : Res :=
  if !logicCheck.contains ';' then
    rerr (str "ERROR - LogicCheck: FieldName '" ++ fieldname ++ str "' in worksheet '" ++
      ws ++ str "' has invalid syntax for LogicCheck (missing semicolon): " ++ logicCheck)
  else
    let parts := pySplitFirst ';' logicCheck
    if parts.length ≠ 2 then
      rerr (str "ERROR - LogicCheck: FieldName '" ++ fieldname ++ str "' in worksheet '" ++
        ws ++ str "' has invalid syntax for LogicCheck: " ++ logicCheck)
    else
      let expression := pyStrip (parts.getD 0 [])
      let message := pyStrip (parts.getD 1 [])
      if !((str "'").isPrefixOf message && (str "'").isSuffixOf message) then
        rerr (str "ERROR - LogicCheck: FieldName '" ++ fieldname ++ str "' in worksheet '" ++
          ws ++ str "' has invalid syntax for LogicCheck (message must be in single quotes): " ++
          logicCheck)
      else
        let operators := [str "=", str "!=", str "<>", str ">", str ">=", str "<",
          str "<=", str "and", str "or"]
        if !operators.any (fun op => isSubstr op expression) then
          rerr (str "ERROR - LogicCheck: FieldName '" ++ fieldname ++ str "' in worksheet '" ++
            ws ++ str "' has invalid syntax for LogicCheck (no operator found): " ++ logicCheck)
        else Res.nil

/-- `ExcelReader._check_special_button`. -/
def checkSpecialButton (ws value fieldname buttonName : Str) : Res :=
  if !(value = str "True" || value = str "False") then
    rerr (str "ERROR: - " ++ buttonName ++ str " FieldName '" ++ fieldname ++
      str "' in worksheet '" ++ ws ++ str "' has an invalid value for '" ++
      buttonName ++ str "': " ++ value)
  else Res.nil

/-! ## Skip-syntax check -/

/-- The generic invalid-skip message of `_check_skip_syntax`. -/
def msgSkipSyntax (ws fieldname skip : Str) : Str :=
  str "ERROR - Skip: FieldName '" ++ fieldname ++ str "' in worksheet '" ++ ws ++
    str "' has invalid syntax for Skip: " ++ skip

/-- The condition-set message of `_check_skip_syntax` (its text says
LogicCheck). -/
def msgSkipCondition (ws fieldname skip : Str) : Str :=
  str "ERROR - Skip: FieldName '" ++ fieldname ++ str "' in worksheet '" ++ ws ++
    str "' has invalid syntax for LogicCheck: " ++ skip

/-- The loop of `ExcelReader._check_skip_syntax`: the first bad line stops
the scan (`return`), later lines stay unchecked.  The source's test of
`skip_type` against `{"preskip", "postskip"}` can never fail and is kept
only as a comment here. -/
def checkSkipSyntaxLoop (ws fieldname : Str) : List Str → Res
  | [] => Res.nil
  | skip :: rest =>
    if !skip.contains ':' then rerr (msgSkipSyntax ws fieldname skip)
    else
      let skipType :=
        if skip.take ((pyFind ':' skip).getD 0) = str "preskip" then str "preskip"
        else str "postskip"
      -- `if skip_type not in {"preskip", "postskip"}` is vacuously false
      let parts := pySplitChar ',' skip
      if parts.length ≠ 2 then rerr (msgSkipSyntax ws fieldname skip)
      else
        let lenSkip : Nat := if skipType = str "postskip" then 13 else 12
        let logicSection := parts.getD 0 []
        let logicString := pySplitChar ':' logicSection
        if logicString.length ≠ 2 then rerr (msgSkipSyntax ws fieldname skip)
        else
          let logicTokens := pySplitChar ' ' logicSection
          if logicTokens.length ≠ 5 && !isSubstr (str "does not contain") logicSection then
            rerr (msgSkipSyntax ws fieldname skip)
          else if logicTokens.length ≠ 7 && isSubstr (str "does not contain") logicSection then
            rerr (msgSkipSyntax ws fieldname skip)
          else
            let sp := spaceIndices skip
            if sp.length < 4 then rerr (msgSkipSyntax ws fieldname skip)
            else
              let fieldnameToCheck := pySlice lenSkip (sp.getD 2 0) skip
              if fieldnameToCheck.contains ' ' then rerr (msgSkipSyntax ws fieldname skip)
              else if !isSubstr (str "does not contain") logicSection then
                let condition := pySlice (sp.getD 2 0 + 1) (sp.getD 3 0) skip
                if !([str "=", str ">", str ">=", str "<", str "<=", str "<>",
                      str "'contains'"].contains condition) then
                  rerr (msgSkipCondition ws fieldname skip)
                else checkSkipSyntaxLoop ws fieldname rest
              else checkSkipSyntaxLoop ws fieldname rest

/-- `ExcelReader._check_skip_syntax`. -/
def checkSkipSyntax (ws skipText fieldname : Str) : Res :=
  checkSkipSyntaxLoop ws fieldname (splitLines skipText)

/-! ## Whole-sheet (late) validation passes -/

/-- `{q.fieldName: i for i, q in enumerate(self.questionList)}` starting at
`i`; a later occurrence of a name overrides an earlier one, as in a Python
dict comprehension. -/
def fieldIndexFrom : Nat → List Question → Str → Option Nat
  | _, [], _ => none
  | i, q :: qs, name =>
    match fieldIndexFrom (i + 1) qs name with
    | some j => some j
    | none => if q.fieldName = name then some i else none

/-- The field-name → position map of the late validation passes. -/
def fieldIndex (qs : List Question) (name : Str) : Option Nat :=
  fieldIndexFrom 0 qs name

/-- `QUOTED_STRING_RE.sub("", s)`: delete every `'...'` literal, leftmost and
non-overlapping; an unpaired final quote stays. -/
def stripQuotedF : Nat → Str → Str
  | _, [] => []
  | 0, s => s
  | fuel + 1, '\'' :: rest =>
    match pyFind '\'' rest with
    | some j => stripQuotedF fuel (rest.drop (j + 1))
    | none => '\'' :: rest
  | fuel + 1, c :: rest => c :: stripQuotedF fuel rest

/-- `QUOTED_STRING_RE.sub("", s)` (see `stripQuotedF`). -/
def stripQuoted (s : Str) : Str := stripQuotedF s.length s

/-- `FIELD_NAME_RE.findall` (`\b[a-z_][a-z0-9_]*\b`, ignore-case): the
maximal word-character runs that begin with a letter or an underscore (a
run beginning with a digit has no interior word boundary and yields no
match). -/
def wordRunsF : Nat → Str → List Str
  | _, [] => []
  | 0, _ => []
  | fuel + 1, c :: rest =>
    if isWordChar c then
      (c :: rest.takeWhile isWordChar) :: wordRunsF fuel (rest.dropWhile isWordChar)
    else wordRunsF fuel rest

/-- The maximal word-character runs of a string (see `wordRuns`'s use in
`fieldNameMatches`). -/
def wordRuns (s : Str) : List Str := wordRunsF s.length s

/-- The matches of `FIELD_NAME_RE` on a string. -/
def fieldNameMatches (s : Str) : List Str :=
  (wordRuns s).filter (fun r => (r.headD '0').isAlpha || r.headD '0' = '_')

/-- The `referenced` set of `_check_logic_field_names`, as a first-occurrence
ordered list (Python iterates a set; only membership is relied upon). -/
def referencedIds (cleanExpression : Str) : List Str :=
  dedupFirst ((fieldNameMatches cleanExpression).filter
    (fun m => !LOGIC_KEYWORDS.contains (pyLower m)))

/-- The forward-reference diagnostic of `_check_logic_field_names`. -/
def msgLogicAfter (ws curField ref : Str) : Str :=
  str "ERROR - LogicCheck: In worksheet '" ++ ws ++
    str "', the LogicCheck for FieldName '" ++ curField ++
    str "' uses a FieldName AFTER the current question: " ++ ref

/-- The unresolved-reference diagnostic of `_check_logic_field_names`. -/
def msgLogicNonexistent (ws curField ref : Str) : Str :=
  str "ERROR - LogicCheck: In worksheet '" ++ ws ++
    str "', the LogicCheck for FieldName '" ++ curField ++
    str "' uses a nonexistent FieldName: " ++ ref

/-- The body of `_check_logic_field_names` for one referenced identifier.
`field_index[cur_field]` always succeeds in the source because the current
question is in the list; `getD 0` renders that total. -/
def logicRefRes (fi : Str → Option Nat) (ws curField ref : Str) : Res :=
  match fi ref with
  | some ri =>
    if ri > (fi curField).getD 0 then rerr (msgLogicAfter ws curField ref) else Res.nil
  | none => rerr (msgLogicNonexistent ws curField ref)

/-- The cleaned expression of one logic check: the part before the first
semicolon, stripped, with quoted literals removed. -/
def cleanExpressionOf (logicCheck : Str) : Str :=
  stripQuoted (pyStrip ((pySplitFirst ';' logicCheck).getD 0 []))

/-- `_check_logic_field_names` on one logic check of one question. -/
def checkLogicOne (fi : Str → Option Nat) (ws curField logicCheck : Str) : Res :=
  seqRes ((referencedIds (cleanExpressionOf logicCheck)).map (logicRefRes fi ws curField))

/-- `ExcelReader._check_logic_field_names`. -/
def checkLogicFieldNames (ws : Str) (qs : List Question) : Res :=
  seqRes (qs.map (fun q =>
    seqRes (q.logicChecks.map (fun lc => checkLogicOne (fieldIndex qs) ws q.fieldName lc))))

/-- Python `s.strip(",")`. -/
def pyStripChar (t : Char) (s : Str) : Str :=
  ((s.dropWhile (· = t)).reverse.dropWhile (· = t)).reverse

/-- The invalid-structure diagnostic of `_check_skip_to_field_names`. -/
def msgSkipStructure (ws curField skip : Str) : Str :=
  str "ERROR - Skip: In worksheet '" ++ ws ++ str "', the skip for FieldName '" ++
    curField ++ str "' has invalid structure: " ++ skip

/-- The forward checked-field diagnostic of `_check_skip_to_field_names`. -/
def msgSkipCheckAfter (ws curField name : Str) : Str :=
  str "ERROR - Skip: In worksheet '" ++ ws ++ str "', the skip for FieldName '" ++
    curField ++ str "' checks skip for a FieldName AFTER the current question: " ++ name

/-- The unresolved checked-field diagnostic of `_check_skip_to_field_names`. -/
def msgSkipCheckNonexistent (ws curField name : Str) : Str :=
  str "ERROR - Skip: In worksheet '" ++ ws ++ str "', the skip for FieldName '" ++
    curField ++ str "' checks skip of a nonexistent FieldName: " ++ name

/-- The backward skip-target diagnostic of `_check_skip_to_field_names`. -/
def msgSkipToBefore (ws curField name : Str) : Str :=
  str "ERROR - Skip: In worksheet '" ++ ws ++ str "', the skip for FieldName '" ++
    curField ++ str "' skips to a FieldName BEFORE the current question: " ++ name

/-- The skip-to-self diagnostic of `_check_skip_to_field_names`. -/
def msgSkipToSelf (ws curField name : Str) : Str :=
  str "ERROR - Skip: In worksheet '" ++ ws ++ str "', the skip for FieldName '" ++
    curField ++ str "' skips to the current question: " ++ name

/-- The unresolved skip-target diagnostic of `_check_skip_to_field_names`. -/
def msgSkipToNonexistent (ws curField name : Str) : Str :=
  str "ERROR - Skip: In worksheet '" ++ ws ++ str "', the skip for FieldName '" ++
    curField ++ str "' skips to a nonexistent FieldName: " ++ name

/-- `[w for w in skip.split(" ") if w]` of `_check_skip_to_field_names`. -/
def skipWords (skip : Str) : List Str := (pySplitChar ' ' skip).filter (· ≠ [])

/-- `words[2].strip().strip(",")`: the checked field of a skip line. -/
def skipCheckedOf (skip : Str) : Str :=
  pyStripChar ',' (pyStrip ((skipWords skip).getD 2 []))

/-- `words[-1].strip()`: the target field of a skip line. -/
def skipTargetOf (skip : Str) : Str := pyStrip ((skipWords skip).getLastD [])

/-- `_check_skip_to_field_names` on one skip line of one question.
`field_index[cur_field]` always succeeds in the source; `getD 0` renders it
total. -/
def checkSkipLine (fi : Str → Option Nat) (ws curField skip : Str) : Res :=
  if (skipWords skip).length < 4 then rerr (msgSkipStructure ws curField skip)
  else
    (match fi (skipCheckedOf skip) with
     | some i =>
       if i > (fi curField).getD 0 then
         rerr (msgSkipCheckAfter ws curField (skipCheckedOf skip))
       else Res.nil
     | none => rerr (msgSkipCheckNonexistent ws curField (skipCheckedOf skip))) ++
    (match fi (skipTargetOf skip) with
     | some ti =>
       if ti < (fi curField).getD 0 then
         rerr (msgSkipToBefore ws curField (skipTargetOf skip))
       else if ti = (fi curField).getD 0 then
         rerr (msgSkipToSelf ws curField (skipTargetOf skip))
       else Res.nil
     | none => rerr (msgSkipToNonexistent ws curField (skipTargetOf skip)))

/-- `ExcelReader._check_skip_to_field_names`. -/
def checkSkipToFieldNames (ws : Str) (qs : List Question) : Res :=
  seqRes (qs.map (fun q =>
    if q.skip = [] then Res.nil
    else seqRes ((splitLines q.skip).map (checkSkipLine (fieldIndex qs) ws q.fieldName))))

/-- The diagnostic of `_check_required_max_characters`. -/
def msgMaxCharsNeeded (ws fieldname : Str) : Str :=
  str "ERROR - MaxCharacters: In worksheet '" ++ ws ++
    str "', MaxCharacters for FieldName '" ++ fieldname ++ str "' needs a value"

/-- The trigger of `_check_required_max_characters` for one question. -/
def needsMaxCharacters (q : Question) : Bool :=
  [str "text", str "text_integer", str "phone_num"].contains q.fieldType &&
    !([str "automatic", str "checkbox", str "combobox"].contains q.questionType) &&
    q.maxCharacters == str "-9"

/-- `ExcelReader._check_required_max_characters`. -/
def checkRequiredMaxCharacters (ws : Str) (qs : List Question) : Res :=
  seqRes (qs.map (fun q =>
    if needsMaxCharacters q then rerr (msgMaxCharsNeeded ws q.fieldName) else Res.nil))

/-- `ExcelReader._check_duplicate_columns`. -/
def checkDuplicateColumns (ws : Str) (qs : List Question) : Res :=
  let fields := (qs.filter (fun q => q.questionType ≠ str "information")).map
    (fun q => q.fieldName)
  let duplicates := sortStrs (dedupFirst (fields.filter (fun f => fields.count f > 1)))
  if (dedupFirst fields).length ≠ fields.length then
    rerr (str "ERROR - Duplicate fieldnames found in worksheet: " ++ ws ++
      str ". Duplicated fieldnames: " ++ joinWith (str ",") duplicates ++
      str ". Check for empty rows at the end of the spreadsheet and delete them.")
  else Res.nil

/-! ## Regex matchers of the directive parsers

The inputs come from `_split_lines` and are newline-free, so `.` is modelled
as matching any character and `$` as the end of the string. -/

/-- Candidate `(group, rest)` splits for a greedy `\w+` at the start of the
string, longest first (the `re` module's backtracking order). -/
def wordPrefixSplits (s : Str) : List (Str × Str) :=
  let k := (s.takeWhile isWordChar).length
  (List.range k).map (fun i => (s.take (k - i), s.drop (k - i)))

/-- Candidate rests for a greedy `\s*`: most whitespace dropped first. -/
def wsSkipCandidates (s : Str) : List Str :=
  let k := (s.takeWhile isPyWs).length
  (List.range (k + 1)).map (fun i => s.drop (k - i))

/-- Candidate rests for a greedy `\s+`: most whitespace dropped first, at
least one character; empty when the string has no leading whitespace. -/
def wsPlusCandidates (s : Str) : List Str :=
  let k := (s.takeWhile isPyWs).length
  (List.range k).map (fun i => s.drop (k - i))

/-- The ordered alternation of `FILTER_MATCH_RE`: `=|!=|<>|>|<|>=|<=`.
`>` and `<` stand before `>=` and `<=`, so the two-character forms can
never win. -/
def FILTER_OPS : List Str :=
  [str "=", str "!=", str "<>", str ">", str "<", str ">=", str "<="]

/-- `FILTER_MATCH_RE.match` (`^(\w+)\s*(?:(=|!=|<>|>|<|>=|<=)\s*)?(.+)$`)
with `re`'s leftmost, greedy-with-backtracking semantics: returns
(group 1, optional group 2, group 3). -/
def filterMatch (s : Str) : Option (Str × Option Str × Str) :=
  (wordPrefixSplits s).findSome? (fun g1 =>
    (wsSkipCandidates g1.2).findSome? (fun rest2 =>
      (FILTER_OPS.findSome? (fun op =>
        if op.isPrefixOf rest2 then
          (wsSkipCandidates (rest2.drop op.length)).findSome? (fun rest3 =>
            if rest3 ≠ [] then some (g1.1, some op, rest3) else none)
        else none)).orElse (fun _ =>
          if rest2 ≠ [] then some (g1.1, none, rest2) else none)))

/-- `ExcelReader._parse_operator`. -/
def parseOperator (op : Str) : Str :=
  let op := pyStrip op
  if op = str ">" then str "&gt;"
  else if op = str "<" then str "&lt;"
  else if op = str ">=" then str "&gt;="
  else if op = str "<=" then str "&lt;="
  else if op = str "=" || op = str "!=" || op = str "<>" then op
  else str "="

/-- The tail of `PARAMETER_RE` after group 1: `\s*=\s*(\w+)$`. -/
def parameterMatchTail (g1 rest : Str) : Option (Str × Str) :=
  match rest.dropWhile isPyWs with
  | '=' :: rest2 =>
    let rest3 := rest2.dropWhile isPyWs
    let w2 := rest3.takeWhile isWordChar
    if w2 ≠ [] && rest3.drop w2.length = [] then some (g1, w2) else none
  | _ => none

/-- `PARAMETER_RE.match` (`^(@?\w+)\s*=\s*(\w+)$`).  The greedy `\w+` never
needs to backtrack because everything after group 1 starts with a non-word
character. -/
def parameterMatch (s : Str) : Option (Str × Str) :=
  (match s with
   | '@' :: rest =>
     let run := rest.takeWhile isWordChar
     if run ≠ [] then parameterMatchTail ('@' :: run) (rest.drop run.length) else none
   | _ => none).orElse (fun _ =>
    let run := s.takeWhile isWordChar
    if run ≠ [] then parameterMatchTail run (s.drop run.length) else none)

/-- The ordered alternation of `WHEN_CONDITION_RE`:
`=|!=|<>|>=|<=|>|<` (here the two-character forms do come first). -/
def WHEN_OPS : List Str :=
  [str "=", str "!=", str "<>", str ">=", str "<=", str ">", str "<"]

/-- `\s*(.+)$` at the end of `WHEN_CONDITION_RE`. -/
def wsThenRest (s : Str) : Option Str :=
  (wsSkipCandidates s).findSome? (fun r => if r ≠ [] then some r else none)

/-- `WHEN_CONDITION_RE.match`
(`^(\w+)\s+(=|!=|<>|>=|<=|>|<)\s+(.+?)\s*=>\s*(.+)$`): returns
(field, operator, value, result).  The lazy `(.+?)` takes the shortest
prefix from which the rest of the pattern completes. -/
def whenMatch (s : Str) : Option (Str × Str × Str × Str) :=
  let w1 := s.takeWhile isWordChar
  if w1 = [] then none
  else
    (wsPlusCandidates (s.drop w1.length)).findSome? (fun r2 =>
      WHEN_OPS.findSome? (fun op =>
        if op.isPrefixOf r2 then
          (wsPlusCandidates (r2.drop op.length)).findSome? (fun r4 =>
            (List.range r4.length).findSome? (fun i =>
              let value := r4.take (i + 1)
              let rem := r4.drop (i + 1)
              let wsl := (rem.takeWhile isPyWs).length
              if (str "=>").isPrefixOf (rem.drop wsl) then
                match wsThenRest (rem.drop (wsl + 2)) with
                | some g4 => some (w1, op, value, g4)
                | none => none
              else none))
        else none))

/-! ## `_parse_dynamic_responses` -/

/-- One line of `ExcelReader._parse_dynamic_responses`. -/
def parseDynamicLine (ws fieldname : Str) (q : Question) (line : Str) : Question × Res :=
  let trimmed := pyStrip line
  if trimmed = [] then (q, Res.nil)
  else
    let parts := pySplitFirst ':' trimmed
    if parts.length ≠ 2 then
      (q, rerr (str "ERROR - Responses: Invalid dynamic response line format for FieldName '" ++
        fieldname ++ str "' in worksheet '" ++ ws ++ str "': '" ++ trimmed ++ str "'"))
    else
      let key := pyLower (pyStrip (parts.getD 0 []))
      let value := pyStrip (parts.getD 1 [])
      if key = str "source" then
        let lowered := pyLower value
        if lowered = str "csv" then
          ({q with responseSourceType := ResponseSourceType.CSV}, Res.nil)
        else if lowered = str "database" then
          ({q with responseSourceType := ResponseSourceType.DATABASE}, Res.nil)
        else
          (q, rerr (str "ERROR - Responses: Invalid source type '" ++ value ++
            str "' for FieldName '" ++ fieldname ++ str "' in worksheet '" ++ ws ++
            str "'. Must be 'csv' or 'database'."))
      else if key = str "file" then ({q with responseSourceFile := value}, Res.nil)
      else if key = str "table" then ({q with responseSourceTable := value}, Res.nil)
      else if key = str "filter" then
        match filterMatch value with
        | some m =>
          ({q with responseFilters := q.responseFilters ++
              [⟨pyStrip m.1, pyStrip m.2.2, parseOperator ((m.2.1).getD (str "="))⟩]},
           Res.nil)
        | none =>
          (q, rerr (str "ERROR - Responses: Invalid filter format for FieldName '" ++
            fieldname ++ str "' in worksheet '" ++ ws ++ str "': '" ++ value ++
            str "'. Expected 'column [operator] value'."))
      else if key = str "display" then ({q with responseDisplayColumn := value}, Res.nil)
      else if key = str "value" then ({q with responseValueColumn := value}, Res.nil)
      else if key = str "distinct" then
        let lowered := pyLower value
        if lowered = str "true" then ({q with responseDistinct := some true}, Res.nil)
        else if lowered = str "false" then ({q with responseDistinct := some false}, Res.nil)
        else
          (q, rerr (str "ERROR - Responses: Invalid boolean value for 'distinct' for FieldName '" ++
            fieldname ++ str "' in worksheet '" ++ ws ++ str "'. Must be 'true' or 'false'."))
      else if key = str "empty_message" then ({q with responseEmptyMessage := value}, Res.nil)
      else if key = str "dont_know" then
        let vparts := pySplitFirst ',' value
        let q := {q with responseDontKnowValue := pyStrip (vparts.getD 0 [])}
        if vparts.length > 1 then
          ({q with responseDontKnowLabel := pyStrip (vparts.getD 1 [])}, Res.nil)
        else (q, Res.nil)
      else if key = str "not_in_list" then
        let vparts := pySplitFirst ',' value
        let q := {q with responseNotInListValue := pyStrip (vparts.getD 0 [])}
        if vparts.length > 1 then
          ({q with responseNotInListLabel := pyStrip (vparts.getD 1 [])}, Res.nil)
        else (q, Res.nil)
      else
        (q, rwarn (str "WARNING - Responses: Unknown dynamic response key '" ++ key ++
          str "' for FieldName '" ++ fieldname ++ str "' in worksheet '" ++ ws ++ str "'."))

/-- `ExcelReader._parse_dynamic_responses`. -/
def parseDynamicResponses (responses : Str) (q : Question) (ws fieldname : Str) :
    Question × Res :=
  (splitLines responses).foldl
    (fun acc line =>
      let (q', r') := parseDynamicLine ws fieldname acc.1 line
      (q', acc.2 ++ r'))
    (q, Res.nil)

/-! ## `_parse_automatic_calculation` -/

/-- `ExcelReader._parse_result_value`. -/
def parseResultValue (value : Str) : CalculationPart :=
  leafPart CalculationType.CONSTANT value [] []

/-- `ExcelReader._parse_parameter`. -/
def parseParameter (paramStr : Str) (q : Question) (ws fieldname : Str) : Question × Res :=
  match parameterMatch paramStr with
  | none =>
    (q, rerr (str "ERROR - Calculation: Invalid parameter format '" ++ paramStr ++
      str "' for FieldName '" ++ fieldname ++ str "' in worksheet '" ++ ws ++
      str "'. Expected format: '@paramName = fieldName'."))
  | some m =>
    let name := pyStrip m.1
    let name := if (str "@").isPrefixOf name then name else '@' :: name
    ({q with calculationQueryParameters :=
        q.calculationQueryParameters ++ [⟨name, pyStrip m.2⟩]}, Res.nil)

/-- `ExcelReader._parse_when_condition`. -/
def parseWhenCondition (whenStr : Str) (q : Question) (ws fieldname : Str) : Question × Res :=
  match whenMatch whenStr with
  | none =>
    (q, rerr (str "ERROR - Calculation: Invalid when condition format '" ++ whenStr ++
      str "' for FieldName '" ++ fieldname ++ str "' in worksheet '" ++ ws ++
      str "'. Expected format: 'field operator value => result'."))
  | some m =>
    ({q with calculationCaseConditions := q.calculationCaseConditions ++
        [⟨pyStrip m.1, pyStrip m.2.1, pyStrip m.2.2.1,
          some (parseResultValue (pyStrip m.2.2.2))⟩]}, Res.nil)

/-- `ExcelReader._parse_part_line`. -/
def parsePartLine (partLine ws fieldname : Str) : Option CalculationPart × Res :=
  let words := pySplitFirst ' ' partLine
  if words.length < 2 then
    (none, rerr (str "ERROR - Calculation: Invalid part format '" ++ partLine ++
      str "' for FieldName '" ++ fieldname ++ str "' in worksheet '" ++ ws ++
      str "'. Expected 'type value'."))
  else
    let partType := pyLower (pyStrip (words.getD 0 []))
    let partValue := pyStrip (words.getD 1 [])
    if partType = str "constant" then
      (some (leafPart CalculationType.CONSTANT partValue [] []), Res.nil)
    else if partType = str "lookup" then
      (some (leafPart CalculationType.LOOKUP [] partValue []), Res.nil)
    else if partType = str "query" then
      (some (leafPart CalculationType.QUERY [] [] partValue), Res.nil)
    else
      (none, rerr (str "ERROR - Calculation: Invalid part type '" ++ partType ++
        str "' for FieldName '" ++ fieldname ++ str "' in worksheet '" ++ ws ++
        str "'. Must be 'constant', 'lookup', or 'query'."))

/-- `ExcelReader._validate_calculation_fields`. -/
def validateCalculationFields (q : Question) (ws fieldname : Str) : Res :=
  let ctype := q.calculationType
  if ctype = CalculationType.QUERY then
    (if q.calculationQuerySql = [] then
      rerr (str "ERROR - Calculation: Query calculation for FieldName '" ++ fieldname ++
        str "' in worksheet '" ++ ws ++ str "' is missing required 'sql' field.")
     else Res.nil)
  else if ctype = CalculationType.CASE then
    (if q.calculationCaseConditions.length = 0 then
      rerr (str "ERROR - Calculation: Case calculation for FieldName '" ++ fieldname ++
        str "' in worksheet '" ++ ws ++ str "' is missing 'when' conditions.")
     else Res.nil)
  else if ctype = CalculationType.CONSTANT then
    (if q.calculationConstantValue = [] then
      rerr (str "ERROR - Calculation: Constant calculation for FieldName '" ++ fieldname ++
        str "' in worksheet '" ++ ws ++ str "' is missing required 'value' field.")
     else Res.nil)
  else if ctype = CalculationType.LOOKUP then
    (if q.calculationLookupField = [] then
      rerr (str "ERROR - Calculation: Lookup calculation for FieldName '" ++ fieldname ++
        str "' in worksheet '" ++ ws ++ str "' is missing required 'field' field.")
     else Res.nil)
  else if ctype = CalculationType.MATH then
    (if q.calculationMathOperator = [] then
      rerr (str "ERROR - Calculation: Math calculation for FieldName '" ++ fieldname ++
        str "' in worksheet '" ++ ws ++ str "' is missing required 'operator' field.")
     else Res.nil) ++
    (if q.calculationMathParts.length < 2 then
      rerr (str "ERROR - Calculation: Math calculation for FieldName '" ++ fieldname ++
        str "' in worksheet '" ++ ws ++ str "' must have at least 2 parts.")
     else Res.nil)
  else if ctype = CalculationType.CONCAT then
    (if q.calculationConcatParts.length = 0 then
      rerr (str "ERROR - Calculation: Concat calculation for FieldName '" ++ fieldname ++
        str "' in worksheet '" ++ ws ++ str "' must have at least 1 part.")
     else Res.nil)
  else if ctype = CalculationType.AGE_FROM_DATE then
    (if q.calculationLookupField = [] then
      rerr (str "ERROR - Calculation: AgeFromDate calculation for FieldName '" ++ fieldname ++
        str "' in worksheet '" ++ ws ++ str "' is missing required 'field' field.")
     else Res.nil) ++
    (if q.calculationConstantValue = [] then
      rerr (str "ERROR - Calculation: AgeFromDate calculation for FieldName '" ++ fieldname ++
        str "' in worksheet '" ++ ws ++ str "' is missing required 'value' field.")
     else Res.nil)
  else if ctype = CalculationType.AGE_AT_DATE then
    (if q.calculationLookupField = [] then
      rerr (str "ERROR - Calculation: AgeAtDate calculation for FieldName '" ++ fieldname ++
        str "' in worksheet '" ++ ws ++ str "' is missing required 'field' field.")
     else Res.nil) ++
    (if q.calculationConstantValue = [] then
      rerr (str "ERROR - Calculation: AgeAtDate calculation for FieldName '" ++ fieldname ++
        str "' in worksheet '" ++ ws ++ str "' is missing required 'value' field.")
     else Res.nil)
  else if ctype = CalculationType.DATE_OFFSET then
    (if q.calculationLookupField = [] then
      rerr (str "ERROR - Calculation: DateOffset calculation for FieldName '" ++ fieldname ++
        str "' in worksheet '" ++ ws ++ str "' is missing required 'field' field.")
     else Res.nil) ++
    (if q.calculationConstantValue = [] then
      rerr (str "ERROR - Calculation: DateOffset calculation for FieldName '" ++ fieldname ++
        str "' in worksheet '" ++ ws ++ str "' is missing required 'value' field.")
     else if !dateRangeMatch q.calculationConstantValue then
      rerr (str "ERROR - Calculation: DateOffset calculation for FieldName '" ++ fieldname ++
        str "' in worksheet '" ++ ws ++ str "' has invalid 'value' format: " ++
        q.calculationConstantValue ++ str ". Expected format like '+28d', '-1y', etc.")
     else Res.nil)
  else if ctype = CalculationType.DATE_DIFF then
    (if q.calculationLookupField = [] then
      rerr (str "ERROR - Calculation: DateDiff calculation for FieldName '" ++ fieldname ++
        str "' in worksheet '" ++ ws ++ str "' is missing required 'field' field (start date).")
     else Res.nil) ++
    (if q.calculationConstantValue = [] then
      rerr (str "ERROR - Calculation: DateDiff calculation for FieldName '" ++ fieldname ++
        str "' in worksheet '" ++ ws ++ str "' is missing required 'value' field (end date).")
     else Res.nil) ++
    (if q.calculationUnit = [] then
      rerr (str "ERROR - Calculation: DateDiff calculation for FieldName '" ++ fieldname ++
        str "' in worksheet '" ++ ws ++ str "' is missing required 'unit' field.")
     else if !([str "d", str "w", str "m", str "y"].contains (pyLower q.calculationUnit)) then
      rerr (str "ERROR - Calculation: DateDiff calculation for FieldName '" ++ fieldname ++
        str "' in worksheet '" ++ ws ++ str "' has invalid 'unit': " ++ q.calculationUnit ++
        str ". Must be 'd', 'w', 'm', or 'y'.")
     else Res.nil)
  else Res.nil

/-- The fold state of `_parse_automatic_calculation`. -/
structure CalcParseState where
  q : Question
  res : Res
  currentCalc : Str
  whenLines : List Str
  partLines : List Str

/-- The `calc:` kind mapping of `_parse_automatic_calculation`. -/
def calcKindOf (s : Str) : Option CalculationType :=
  if s = str "query" then some CalculationType.QUERY
  else if s = str "case" then some CalculationType.CASE
  else if s = str "constant" then some CalculationType.CONSTANT
  else if s = str "lookup" then some CalculationType.LOOKUP
  else if s = str "math" then some CalculationType.MATH
  else if s = str "concat" then some CalculationType.CONCAT
  else if s = str "age_from_date" then some CalculationType.AGE_FROM_DATE
  else if s = str "age_at_date" then some CalculationType.AGE_AT_DATE
  else if s = str "date_offset" then some CalculationType.DATE_OFFSET
  else if s = str "date_diff" then some CalculationType.DATE_DIFF
  else none

/-- One line of `_parse_automatic_calculation`. -/
def parseCalcLine (ws fieldname : Str) (st : CalcParseState) (line : Str) : CalcParseState :=
  let trimmed := pyStrip line
  if trimmed = [] then st
  else
    let parts := pySplitFirst ':' trimmed
    if parts.length ≠ 2 then
      {st with res := st.res ++ rerr (str "ERROR - Calculation: Invalid line format for FieldName '" ++
        fieldname ++ str "' in worksheet '" ++ ws ++ str "': '" ++ trimmed ++ str "'")}
    else
      let key := pyLower (pyStrip (parts.getD 0 []))
      let value := pyStrip (parts.getD 1 [])
      if key = str "calc" then
        let currentCalc := pyLower value
        match calcKindOf currentCalc with
        | some t => {st with currentCalc := currentCalc, q := {st.q with calculationType := t}}
        | none =>
          let st := {st with currentCalc := currentCalc}
          {st with res := st.res ++ rerr (str "ERROR - Calculation: Invalid calculation type '" ++
              value ++ str "' for FieldName '" ++ fieldname ++ str "' in worksheet '" ++ ws ++
              str "'. Must be 'query', 'case', 'constant', 'lookup', 'math', 'concat', " ++
              str "'age_from_date', 'age_at_date', 'date_offset', or 'date_diff'.")}
      else if key = str "sql" then {st with q := {st.q with calculationQuerySql := value}}
      else if key = str "param" then
        let (q', r') := parseParameter value st.q ws fieldname
        {st with q := q', res := st.res ++ r'}
      else if key = str "when" then {st with whenLines := st.whenLines ++ [value]}
      else if key = str "else" then
        if st.currentCalc = str "case" then
          {st with q := {st.q with calculationCaseElse := some (parseResultValue value)}}
        else st
      else if key = str "value" then
        if [str "constant", str "age_from_date", str "age_at_date", str "date_offset",
            str "date_diff"].contains st.currentCalc then
          {st with q := {st.q with calculationConstantValue := value}}
        else st
      else if key = str "field" then
        if [str "lookup", str "age_from_date", str "age_at_date", str "date_offset",
            str "date_diff"].contains st.currentCalc then
          {st with q := {st.q with calculationLookupField := value}}
        else st
      else if key = str "unit" then
        if st.currentCalc = str "date_diff" then
          {st with q := {st.q with calculationUnit := value}}
        else st
      else if key = str "operator" then
        if st.currentCalc = str "math" then
          if [str "+", str "-", str "*", str "/"].contains value then
            {st with q := {st.q with calculationMathOperator := value}}
          else
            {st with res := st.res ++ rerr (str "ERROR - Calculation: Invalid math operator '" ++
              value ++ str "' for FieldName '" ++ fieldname ++ str "' in worksheet '" ++ ws ++
              str "'. Must be +, -, *, or /.")}
        else st
      else if key = str "separator" then
        if st.currentCalc = str "concat" || st.currentCalc = str "age_at_date" then
          {st with q := {st.q with calculationConcatSeparator := value}}
        else st
      else if key = str "part" then {st with partLines := st.partLines ++ [value]}
      else
        {st with res := st.res ++ rwarn (str "WARNING - Calculation: Unknown calculation key '" ++
          key ++ str "' for FieldName '" ++ fieldname ++ str "' in worksheet '" ++ ws ++ str "'.")}

/-- `ExcelReader._parse_automatic_calculation`. -/
def parseAutomaticCalculation (responses : Str) (q : Question) (ws fieldname : Str) :
    Question × Res :=
  let st := (splitLines responses).foldl (parseCalcLine ws fieldname)
    ⟨q, Res.nil, [], [], []⟩
  let whenStep :=
    if st.currentCalc = str "case" then
      st.whenLines.foldl (fun acc wl =>
        let (q', r') := parseWhenCondition wl acc.1 ws fieldname
        (q', acc.2 ++ r')) (st.q, Res.nil)
    else (st.q, Res.nil)
  let partStep :=
    if st.currentCalc = str "math" || st.currentCalc = str "concat" then
      st.partLines.foldl (fun acc pl =>
        let (part?, r') := parsePartLine pl ws fieldname
        match part? with
        | none => (acc.1, acc.2 ++ r')
        | some part =>
          if st.currentCalc = str "math" then
            ({acc.1 with calculationMathParts := acc.1.calculationMathParts ++ [part]},
             acc.2 ++ r')
          else
            ({acc.1 with calculationConcatParts := acc.1.calculationConcatParts ++ [part]},
             acc.2 ++ r')) (whenStep.1, Res.nil)
    else (whenStep.1, Res.nil)
  let rv := validateCalculationFields partStep.1 ws fieldname
  (partStep.1, st.res ++ whenStep.2 ++ partStep.2 ++ rv)

/-! ## `ExcelReader.create_question_list` -/

/-- One worksheet row as seen through the tabular-source boundary: the cell
texts after the `_to_str` stringification, and whether the cell in column
14 lies inside a merged range (`_is_cell_merged`). -/
structure Row where
  cells : List Str
  lastColMerged : Bool

/-- A worksheet: its title and its rows; the first row is the header. -/
structure Sheet where
  title : Str
  rows : List Row

/-- `_get_cell_raw` for a 1-based column (a missing cell reads as `""`). -/
def getCellRaw (r : Row) (col : Nat) : Str := r.cells.getD (col - 1) []

/-- `_get_cell_trim`. -/
def getCellTrim (r : Row) (col : Nat) : Str := pyStrip (getCellRaw r col)

/-- `ExcelReader.COLUMN_NAMES`. -/
def COLUMN_NAMES : List Str :=
  [str "FieldName", str "QuestionType", str "FieldType", str "QuestionText",
   str "MaxCharacters", str "Responses", str "LowerRange", str "UpperRange",
   str "LogicCheck", str "DontKnow", str "Refuse", str "NA", str "Skip", str "Comments"]

/-- Decimal digit string of a `Nat` (for the row number in a message). -/
def natToStr (n : Nat) : Str := (toString n).data

/-- The header-row check at `row_idx == 1` of `create_question_list`. -/
def headerCheck (ws : Str) (r : Row) : Res :=
  let currentHeaders := (List.range 14).map (fun i => getCellTrim r (i + 1))
  if currentHeaders ≠ COLUMN_NAMES then
    rerr (str "ERROR: The header names in the " ++ ws ++
      str " are incorrect. Header names should be: FieldName, QuestionType, FieldType, " ++
      str "QuestionText, MaxCharacters, Responses, LowerRange, UpperRange, LogicCheck, " ++
      str "DontKnow, Refuse, NA, Skip, Comments")
  else Res.nil

/-- The logic-check cell handling inside the row loop (column 9). -/
def processLogicCell (ws fieldName : Str) (q : Question) (logicRaw : Str) : Question × Res :=
  if logicRaw ≠ [] then
    (splitLines logicRaw).foldl (fun acc check =>
      let trimmed := pyStrip check
      if (str "unique;").isPrefixOf trimmed then
        let parts := pySplitFirst ';' trimmed
        if parts.length = 2 then
          let message := pyStrip (parts.getD 1 [])
          if (str "'").isPrefixOf message && (str "'").isSuffixOf message then
            ({acc.1 with uniqueCheckMessage := pyStripChar '\'' message}, acc.2)
          else
            (acc.1, acc.2 ++ rerr (str "ERROR - LogicCheck: FieldName '" ++ fieldName ++
              str "' in worksheet '" ++ ws ++
              str "' has invalid syntax for unique check message (must be in single quotes): " ++
              trimmed))
        else
          (acc.1, acc.2 ++ rerr (str "ERROR - LogicCheck: FieldName '" ++ fieldName ++
            str "' in worksheet '" ++ ws ++
            str "' has invalid syntax for unique check (missing message): " ++ trimmed))
      else
        ({acc.1 with logicChecks := acc.1.logicChecks ++ [trimmed]},
         acc.2 ++ checkLogicCheckSyntax ws trimmed fieldName)) (q, Res.nil)
  else (q, Res.nil)

/-- The responses cell dispatch inside the row loop (column 6). -/
def processResponsesCell (ws fieldName questionType : Str) (q : Question)
    (rawResponses : Str) : Question × Res :=
  let rawStripped := pyStrip rawResponses
  if (str "source:").isPrefixOf (pyLower rawStripped) then
    parseDynamicResponses rawResponses q ws fieldName
  else if (str "calc:").isPrefixOf (pyLower rawStripped) then
    if questionType = str "automatic" then
      if !BUILT_IN_AUTO_FIELDS.contains (pyLower fieldName) then
        parseAutomaticCalculation rawResponses q ws fieldName
      else (q, Res.nil)
    else
      (q, rerr (str "ERROR - Calculation: FieldName '" ++ fieldName ++
        str "' in worksheet '" ++ ws ++
        str "' has calculation syntax but QuestionType is not 'automatic'."))
  else if (str "mask:").isPrefixOf (pyLower rawStripped) then
    if questionType = str "text" then
      ({q with mask := pyStrip (rawStripped.drop 5)}, Res.nil)
    else
      (q, rerr (str "ERROR - Mask: FieldName '" ++ fieldName ++ str "' in worksheet '" ++
        ws ++ str "' has mask syntax but QuestionType is not 'text'."))
  else ({q with responses := rawResponses}, Res.nil)

/-- One data row of `create_question_list` (the body of the loop after the
header and merged-cell branches).  No step of the model can raise, so the
source's per-row `except` arm is unreachable here. -/
def processRow (ws : Str) (rowIdx : Nat) (r : Row) : Option Question × Res :=
  let fieldName := getCellTrim r 1
  if fieldName = [] then
    (none, rerr (str "ERROR - FieldName: Row " ++ natToStr rowIdx ++ str " in worksheet '" ++
      ws ++ str "' has a blank FieldName."))
  else
    let r1 := checkFieldName ws fieldName
    let questionType := getCellTrim r 2
    let fieldType := getCellTrim r 3
    let questionText := getCellTrim r 4
    let r2 :=
      if questionText = [] && questionType ≠ str "automatic" then
        rerr (str "ERROR - QuestionText: FieldName '" ++ fieldName ++ str "' in worksheet '" ++
          ws ++ str "' has blank QuestionText.")
      else Res.nil
    let maxChars := getCellTrim r 5
    let maxCharacters := if maxChars ≠ [] then maxChars else str "-9"
    let r3 :=
      if maxCharacters ≠ str "-9" then checkMaxCharsValue ws maxCharacters fieldName
      else Res.nil
    let q : Question := {fieldName := fieldName, questionType := questionType, fieldType := fieldType, questionText := questionText, maxCharacters := maxCharacters}
    let step4 := processResponsesCell ws fieldName questionType q (getCellRaw r 6)
    let q := step4.1
    let r4 := step4.2
    let r5 := checkQuestionFieldType q ws
    let lowerVal := getCellTrim r 7
    let upperVal := getCellTrim r 8
    let q := {q with lowerRange := if lowerVal ≠ [] then lowerVal else str "-9"}
    let q := {q with upperRange := if upperVal ≠ [] then upperVal else str "-9"}
    let r6 :=
      if q.questionType = str "date" then
        checkDateRange ws q.lowerRange fieldName (str "LowerRange") ++
          checkDateRange ws q.upperRange fieldName (str "UpperRange")
      else
        (if q.lowerRange ≠ str "-9" then
          checkNumericRange ws q.lowerRange fieldName (str "LowerRange") else Res.nil) ++
        (if q.upperRange ≠ str "-9" then
          checkNumericRange ws q.upperRange fieldName (str "UpperRange") else Res.nil)
    let step7 := processLogicCell ws fieldName q (getCellTrim r 9)
    let q := step7.1
    let r7 := step7.2
    let dk := getCellTrim r 10
    let q := {q with dontKnow := if dk ≠ [] then dk else str "-9"}
    let r8 :=
      if q.dontKnow ≠ str "-9" then checkSpecialButton ws q.dontKnow fieldName (str "DontKnow")
      else Res.nil
    let rf := getCellTrim r 11
    let q := {q with refuse := if rf ≠ [] then rf else str "-9"}
    let r9 :=
      if q.refuse ≠ str "-9" then checkSpecialButton ws q.refuse fieldName (str "Refuse")
      else Res.nil
    let nav := getCellTrim r 12
    let q := {q with na := if nav ≠ [] then nav else str "-9"}
    let r10 :=
      if q.na ≠ str "-9" then checkSpecialButton ws q.na fieldName (str "NA")
      else Res.nil
    let q := {q with skip := getCellTrim r 13}
    let r11 := if q.skip ≠ [] then checkSkipSyntax ws q.skip fieldName else Res.nil
    (some q, r1 ++ r2 ++ r3 ++ r4 ++ r5 ++ r6 ++ r7 ++ r8 ++ r9 ++ r10 ++ r11)

/-- The loop of `create_question_list` over the data rows (the rows after
the header), carrying the 1-based row index; a row whose column-14 cell is
merged is skipped. -/
def rowPhase (ws : Str) : Nat → List Row → List Question × Res
  | _, [] => ([], Res.nil)
  | rowIdx, r :: rest =>
    let step := if r.lastColMerged then (none, Res.nil) else processRow ws rowIdx r
    let tail := rowPhase ws (rowIdx + 1) rest
    (match step.1 with
     | some q => q :: tail.1
     | none => tail.1, step.2 ++ tail.2)

/-- The four whole-sheet (late) validation passes, in source order. -/
def lateChecks (ws : Str) (qs : List Question) : Res :=
  checkLogicFieldNames ws qs ++ checkSkipToFieldNames ws qs ++
    checkRequiredMaxCharacters ws qs ++ checkDuplicateColumns ws qs

/-- `ExcelReader.create_question_list` on a fresh reader: the question list
and the reader's log/error state. -/
def createQuestionList (s : Sheet) : List Question × Res :=
  let startLog := rwarn (str "\rChecking worksheet: '" ++ s.title ++ str "'")
  match s.rows with
  | [] => ([], startLog)
  | headerRow :: dataRows =>
    let rHeader := headerCheck s.title headerRow
    let rows := rowPhase s.title 2 dataRows
    let rowRes := startLog ++ rHeader ++ rows.2
    if !rowRes.err then
      let lateRes := lateChecks s.title rows.1
      if !(rowRes ++ lateRes).err then
        (rows.1, rowRes ++ lateRes ++ rwarn (str "No errors found in '" ++ s.title ++ str "'"))
      else (rows.1, rowRes ++ lateRes)
    else (rows.1, rowRes)

/-! ## `XmlGenerator` (`xml_generator.py`)

The emitter writes fragments to a file stream; the model collects the
fragments, one list element per `f.write` call, in order.  A Python
exception (unguarded in the source: it aborts the run) becomes `none`. -/

/-- `re.sub(r"(?<!&lt;)(?<!&gt;)<(?!=)", "&lt;", s)`: the lookarounds read
the original string, so the scan is positional. -/
def subBareLt (s : Str) : Str :=
  ((List.range s.length).map (fun i =>
    let c := s.getD i '\x00'
    if c = '<' && !(i ≥ 4 && pySlice (i - 4) i s = str "&lt;") &&
        !(i ≥ 4 && pySlice (i - 4) i s = str "&gt;") && s.getD (i + 1) '\x00' ≠ '=' then
      str "&lt;"
    else [c])).flatten

/-- `re.sub(r"(?<!&lt;=)(?<!&gt;=)>(?!=)", "&gt;", s)`. -/
def subBareGt (s : Str) : Str :=
  ((List.range s.length).map (fun i =>
    let c := s.getD i '\x00'
    if c = '>' && !(i ≥ 5 && pySlice (i - 5) i s = str "&lt;=") &&
        !(i ≥ 5 && pySlice (i - 5) i s = str "&gt;=") && s.getD (i + 1) '\x00' ≠ '=' then
      str "&gt;"
    else [c])).flatten

/-- `XmlGenerator._generate_logic_check`; `none` models the `ValueError` of
the two-way destructuring when the check has no semicolon. -/
def generateLogicCheck (logicCheck : Str) : Option Str :=
  match (pySplitFirst ';' logicCheck).map pyStrip with
  | [expression, message] =>
    let e := pyReplace (str "!=") (str "&lt;&gt;") expression
    let e := pyReplace (str "<>") (str "&lt;&gt;") e
    let e := pyReplace (str "<=") (str "&lt;=") e
    let e := pyReplace (str ">=") (str "&gt;=") e
    let e := subBareGt (subBareLt e)
    if isSubstr (str " or ") e then
      let parts := pySplitStr (str " or ") e
      let n := parts.length
      let lines := parts.enum.map (fun p =>
        str "\t\t\t" ++ pyStrip p.2 ++ (if p.1 < n - 1 then str " or" else []))
      some (joinWith (str "\n") (lines ++ [str ";", str "\t\t\t" ++ message]))
    else some (str "\t\t\t" ++ e ++ str "; " ++ message)
  | _ => none

/-- `XmlGenerator._generate_skip`; `none` models an `IndexError` on the
fixed-offset accesses. -/
def generateSkip (skip : Str) (skipType : Str) : Option Str :=
  let lenSkip : Nat := if skipType = str "postSkip" then 13 else 12
  let sp := spaceIndices skip
  if sp.length < 3 then none
  else
    let fieldnameToCheck := pySlice lenSkip (sp.getD 2 0) skip
    let condValue : Option (Str × Str) :=
      if sp.length = 9 then
        some (str "does not contain", pySlice (sp.getD 5 0 + 1) (sp.getD 6 0 - 1) skip)
      else if isSubstr (str "contains") skip then
        if sp.length < 5 then none
        else some (str "contains", pySlice (sp.getD 3 0 + 1) (sp.getD 4 0 - 1) skip)
      else if sp.length < 5 then none
      else
        let condition := pySlice (sp.getD 2 0 + 1) (sp.getD 3 0) skip
        let condition := pyReplace (str ">") (str "&gt;") (pyReplace (str "<") (str "&lt;") condition)
        some (condition, pySlice (sp.getD 3 0 + 1) (sp.getD 4 0 - 1) skip)
    match condValue with
    | none => none
    | some cv =>
      let fieldnameToSkipTo := pySliceFrom (sp.getLastD 0 + 1) skip
      some (str "\t\t\t<skip fieldname='" ++ fieldnameToCheck ++ str "' condition = '" ++
        cv.1 ++ str "' response='" ++ cv.2 ++
        str "' response_type='fixed' skiptofieldname ='" ++ fieldnameToSkipTo ++
        str "'></skip>")

/-- `XmlGenerator._convert_operator_to_xml`. -/
def convertOperatorToXml (op : Str) : Str :=
  let op := pyStrip op
  if op = str "=" then str "="
  else if op = str "!=" then str "!="
  else if op = str "<>" then str "&lt;&gt;"
  else if op = str ">" then str "&gt;"
  else if op = str "<" then str "&lt;"
  else if op = str ">=" then str "&gt;="
  else if op = str "<=" then str "&lt;="
  else str "="

/-- `XmlGenerator._generate_calculation_part` (recursive). -/
def generateCalculationPartFrags : CalculationPart → Nat → List Str
  | CalculationPart.mk t cv lf qsql qps mo parts csep, indentLevel =>
    let indent : Str := List.replicate indentLevel '\t'
    match t with
    | CalculationType.CONSTANT =>
      [indent ++ str "<result type='constant' value='" ++ cv ++ str "' />\n"]
    | CalculationType.LOOKUP =>
      [indent ++ str "<part type='lookup' field='" ++ lf ++ str "' />\n"]
    | CalculationType.QUERY =>
      [indent ++ str "<part type='query'>\n",
       indent ++ str "\t<sql>" ++ qsql ++ str "</sql>\n"] ++
      qps.map (fun param => indent ++ str "\t<parameter name='" ++ param.name ++
        str "' field='" ++ param.fieldName ++ str "' />\n") ++
      [indent ++ str "</part>\n"]
    | CalculationType.MATH =>
      [indent ++ str "<part type='math' operator='" ++ mo ++ str "'>\n"] ++
      (parts.attach.map (fun nested =>
        generateCalculationPartFrags nested.1 (indentLevel + 1))).flatten ++
      [indent ++ str "</part>\n"]
    | CalculationType.CONCAT =>
      [indent ++ str "<part type='concat'" ++
        (if csep ≠ [] then str " separator='" ++ csep ++ str "'" else []) ++ str ">\n"] ++
      (parts.attach.map (fun nested =>
        generateCalculationPartFrags nested.1 (indentLevel + 1))).flatten ++
      [indent ++ str "</part>\n"]
    | _ => []
termination_by p _ => sizeOf p
decreasing_by
  all_goals
    have hm := List.sizeOf_lt_of_mem nested.2
    simp only [CalculationPart.mk.sizeOf_spec]
    omega

/-- `XmlGenerator._generate_calculation_xml`, as the fragment list of its
writes. -/
def generateCalculationFrags (q : Question) : List Str :=
  if q.calculationType = CalculationType.QUERY then
    [str "\t\t<calculation type='query'>\n",
     str "\t\t\t<sql>" ++ q.calculationQuerySql ++ str "</sql>\n"] ++
    q.calculationQueryParameters.map (fun param =>
      str "\t\t\t<parameter name='" ++ param.name ++ str "' field='" ++ param.fieldName ++
        str "' />\n") ++
    [str "\t\t</calculation>\n"]
  else if q.calculationType = CalculationType.CASE then
    [str "\t\t<calculation type='case'>\n"] ++
    (q.calculationCaseConditions.map (fun cond =>
      [str "\t\t\t<when field='" ++ cond.field ++ str "' operator='" ++
        convertOperatorToXml cond.operator ++ str "' value='" ++ cond.value ++ str "'>\n"] ++
      (match cond.result with
       | some result => generateCalculationPartFrags result 4
       | none => []) ++
      [str "\t\t\t</when>\n"])).flatten ++
    (match q.calculationCaseElse with
     | some e => [str "\t\t\t<else>\n"] ++ generateCalculationPartFrags e 4 ++
         [str "\t\t\t</else>\n"]
     | none => []) ++
    [str "\t\t</calculation>\n"]
  else if q.calculationType = CalculationType.CONSTANT then
    [str "\t\t<calculation type='constant' value='" ++ q.calculationConstantValue ++ str "' />\n"]
  else if q.calculationType = CalculationType.LOOKUP then
    [str "\t\t<calculation type='lookup' field='" ++ q.calculationLookupField ++ str "' />\n"]
  else if q.calculationType = CalculationType.MATH then
    [str "\t\t<calculation type='math' operator='" ++ q.calculationMathOperator ++ str "'>\n"] ++
    (q.calculationMathParts.map (fun part => generateCalculationPartFrags part 3)).flatten ++
    [str "\t\t</calculation>\n"]
  else if q.calculationType = CalculationType.CONCAT then
    [str "\t\t<calculation type='concat'" ++
      (if q.calculationConcatSeparator ≠ [] then
        str " separator='" ++ q.calculationConcatSeparator ++ str "'" else []) ++ str ">\n"] ++
    (q.calculationConcatParts.map (fun part => generateCalculationPartFrags part 3)).flatten ++
    [str "\t\t</calculation>\n"]
  else if q.calculationType = CalculationType.AGE_FROM_DATE then
    [str "\t\t<calculation type='age_from_date' field='" ++ q.calculationLookupField ++
      str "' value='" ++ q.calculationConstantValue ++ str "'/>\n"]
  else if q.calculationType = CalculationType.AGE_AT_DATE then
    [str "\t\t<calculation type='age_at_date' field='" ++ q.calculationLookupField ++
      str "' value='" ++ q.calculationConstantValue ++
      (if q.calculationConcatSeparator ≠ [] then
        str " separator='" ++ q.calculationConcatSeparator ++ str "'" else []) ++ str "/>\n"]
  else if q.calculationType = CalculationType.DATE_OFFSET then
    [str "\t\t<calculation type='date_offset' field='" ++ q.calculationLookupField ++
      str "' value='" ++ q.calculationConstantValue ++ str "' />\n"]
  else if q.calculationType = CalculationType.DATE_DIFF then
    [str "\t\t<calculation type='date_diff' field='" ++ q.calculationLookupField ++
      str "' value='" ++ q.calculationConstantValue ++ str "' unit='" ++ q.calculationUnit ++
      str "' />\n"]
  else []

/-- The static-response emission inside the `<responses>` block. -/
def staticResponseFrags (responses : Str) : List Str :=
  let rs := (splitLinesRaw responses []).filter (· ≠ [])
  if rs.length = 0 then [str "\t\t\t<response></response>\n"]
  else
    rs.map (fun response =>
      match pyFind ':' response with
      | some index =>
        str "\t\t\t<response value = '" ++ response.take index ++ str "'>" ++
          pyStrip (response.drop (index + 1)) ++ str "</response>\n"
      | none =>
        -- `find` returned -1: `response[:index]` drops the last character and
        -- `response[index + 1:]` is the whole string
        str "\t\t\t<response value = '" ++ response.dropLast ++ str "'>" ++
          pyStrip response ++ str "</response>\n")

/-- The `<responses>` block of `write_xml` (only for radio, checkbox,
combobox question types). -/
def responsesFrags (q : Question) : List Str :=
  if [str "radio", str "checkbox", str "combobox"].contains q.questionType then
    let attrs : Str :=
      if q.responseSourceType = ResponseSourceType.CSV then
        str " source='csv' file='" ++ q.responseSourceFile ++ str "'"
      else if q.responseSourceType = ResponseSourceType.DATABASE then
        str " source='database' table='" ++ q.responseSourceTable ++ str "'"
      else []
    [str "\t\t<responses" ++ attrs ++ str ">\n"] ++
    q.responseFilters.map (fun flt =>
      str "\t\t\t<filter column='" ++ flt.column ++ str "' operator='" ++ flt.operator ++
        str "' value='" ++ flt.value ++ str "'/>\n") ++
    (if q.responseDisplayColumn ≠ [] then
      [str "\t\t\t<display column='" ++ q.responseDisplayColumn ++ str "'/>\n"] else []) ++
    (if q.responseValueColumn ≠ [] then
      [str "\t\t\t<value column='" ++ q.responseValueColumn ++ str "'/>\n"] else []) ++
    (match q.responseDistinct with
     | some b =>
       [str "\t\t\t<distinct>" ++ (if b then str "true" else str "false") ++
         str "</distinct>\n"]
     | none => []) ++
    (if q.responseEmptyMessage ≠ [] then
      [str "\t\t\t<empty_message>" ++ q.responseEmptyMessage ++ str "</empty_message>\n"]
     else []) ++
    (if q.responseDontKnowValue ≠ [] then
      [str "\t\t\t<dont_know value='" ++ q.responseDontKnowValue ++ str "'" ++
        (if q.responseDontKnowLabel ≠ [] then
          str " label='" ++ q.responseDontKnowLabel ++ str "'" else []) ++ str "/>\n"]
     else []) ++
    (if q.responseNotInListValue ≠ [] then
      [str "\t\t\t<not_in_list value='" ++ q.responseNotInListValue ++ str "'" ++
        (if q.responseNotInListLabel ≠ [] then
          str " label='" ++ q.responseNotInListLabel ++ str "'" else []) ++ str "/>\n"]
     else []) ++
    (if q.responseSourceType = ResponseSourceType.STATIC then
      staticResponseFrags q.responses
     else []) ++
    [str "\t\t</responses>\n"]
  else []

/-- The `<preskip>`/`<postskip>` blocks of `write_xml`. -/
def skipBlockFrags (q : Question) : Option (List Str) :=
  if q.skip = [] then some []
  else
    let skips := (splitLinesRaw q.skip []).filter (· ≠ [])
    let pre := skips.filter (fun s => (str "preskip:").isPrefixOf s)
    let post := skips.filter (fun s => (str "postskip:").isPrefixOf s)
    match pre.mapM (fun s => generateSkip s (str "preSkip")),
        post.mapM (fun s => generateSkip s (str "postSkip")) with
    | some preGen, some postGen =>
      some
        ((if pre ≠ [] then
            [str "\t\t<preskip>\n"] ++ preGen.map (· ++ str "\n") ++ [str "\t\t</preskip>\n"]
          else []) ++
         (if post ≠ [] then
            [str "\t\t<postskip>\n"] ++ postGen.map (· ++ str "\n") ++ [str "\t\t</postskip>\n"]
          else []))
    | _, _ => none

/-- The special-button children of `write_xml`. -/
def buttonFrags (q : Question) : List Str :=
  (if q.dontKnow = str "TRUE" || q.dontKnow = str "True" then
    [str "\t\t<dont_know>-7</dont_know>\n"] else []) ++
  (if q.refuse = str "TRUE" || q.refuse = str "True" then
    [str "\t\t<refuse>-8</refuse>\n"] else []) ++
  (if q.na = str "TRUE" || q.na = str "True" then [str "\t\t<na>-6</na>\n"] else [])

/-- The logic-check blocks of `write_xml`. -/
def logicCheckFrags (q : Question) : Option (List Str) :=
  (q.logicChecks.mapM generateLogicCheck).map (fun gs =>
    (gs.map (fun g =>
      [str "\t\t<logic_check>\n", g ++ str "\n", str "\t\t</logic_check>\n"])).flatten)

/-- All children of one `<question>` element, one list entry per `f.write`,
in the source's order. -/
def questionChildren (q : Question) : Option (List Str) :=
  let textFrags :=
    if q.questionType ≠ str "automatic" then
      [str "\t\t<text>" ++ q.questionText ++ str "</text>\n"]
    else []
  let calcFrags :=
    if q.questionType = str "automatic" && q.calculationType ≠ CalculationType.NONE then
      generateCalculationFrags q
    else []
  let maxCharsFrags :=
    if q.maxCharacters ≠ str "-9" then
      [str "\t\t<maxCharacters>" ++ q.maxCharacters ++ str "</maxCharacters>\n"]
    else []
  let maskFrags :=
    if q.mask ≠ [] then [str "\t\t<mask value=\"" ++ q.mask ++ str "\" />\n"] else []
  let uniqueFrags :=
    if q.uniqueCheckMessage ≠ [] then
      [str "\t\t<unique_check>\n",
       str "\t\t\t<message>" ++ q.uniqueCheckMessage ++ str "</message>\n",
       str "\t\t</unique_check>\n"]
    else []
  let numericFrags :=
    if q.questionType ≠ str "date" && q.lowerRange ≠ str "-9" then
      [str "\t\t<numeric_check>\n",
       str "\t\t\t<values minvalue ='" ++ q.lowerRange ++ str "' maxvalue='" ++
         q.upperRange ++ str "' other_values = '" ++ q.lowerRange ++
         str "' message = 'Number must be between " ++ q.lowerRange ++ str " and " ++
         q.upperRange ++ str "!'></values>\n",
       str "\t\t</numeric_check>\n"]
    else []
  let dateFrags :=
    if q.questionType = str "date" then
      [str "\t\t<date_range>\n",
       str "\t\t\t<min_date>" ++ q.lowerRange ++ str "</min_date>\n",
       str "\t\t\t<max_date>" ++ q.upperRange ++ str "</max_date>\n",
       str "\t\t</date_range>\n"]
    else []
  match logicCheckFrags q, skipBlockFrags q with
  | some logicFrags, some skipFrags =>
    some (textFrags ++ calcFrags ++ maxCharsFrags ++ maskFrags ++ uniqueFrags ++
      numericFrags ++ dateFrags ++ logicFrags ++ responsesFrags q ++ skipFrags ++
      buttonFrags q)
  | _, _ => none

/-- The opening tag of one `<question>` element. -/
def questionOpenTag (q : Question) : Str :=
  str "\t<question type = '" ++ q.questionType ++ str "' fieldname = '" ++ q.fieldName ++
    str "' fieldtype = '" ++ q.fieldType ++ str "'>\n"

/-- One whole `<question>` element of `write_xml`. -/
def questionFragments (q : Question) : Option (List Str) :=
  (questionChildren q).map (fun ch =>
    questionOpenTag q :: ch ++ [str "\t</question>\n\n"])

/-- The fixed head of the document. -/
def xmlHeaderFrags : List Str :=
  [str "<?xml version = '1.0' encoding = 'utf-8'?>\n", str "<survey>\n\n"]

/-- The fixed tail of the document (the synthetic terminal question). -/
def xmlTrailerFrags : List Str :=
  [str "\t<question type = 'information' fieldname = 'end_of_questions' fieldtype = 'n/a'>\n",
   str "\t\t<text>Press the 'Finish' button to save the data.</text >\n",
   str "\t</question>\n\n",
   str "</survey>\n"]

/-- `XmlGenerator.write_xml`: the byte content of the emitted document
(`none` models an uncaught exception while emitting). -/
def writeXml (qs : List Question) : Option Str :=
  (qs.mapM questionFragments).map (fun frs =>
    (xmlHeaderFrags ++ frs.flatten ++ xmlTrailerFrags).flatten)

/-- The document file name of `write_xml`: the worksheet title with `_dd`
(else the last four characters) replaced by `.xml`. -/
def xmlFileName (worksheetName : Str) : Str :=
  (if (str "_dd").isSuffixOf worksheetName then worksheetName.dropLast.dropLast.dropLast
   else worksheetName.dropLast.dropLast.dropLast.dropLast) ++ str ".xml"

/-! ## `GiSTXProcessor.run` (`processor.py`)

The model keeps the phase structure after the workbook is loaded: every
`_dd`/`_xml` worksheet is read and validated by a fresh `ExcelReader`
first; only then, and only when no reader raised its error flag, are the
documents emitted, the manifest written and the archive created.  The
missing-file branch, the `crfs` sheet, the manifest's contents, the log
file and the archive's payload are external collaborators.  `xmlValid`
abstracts `_validate_xml_syntax` (an XML well-formedness oracle on a
written document); an uncaught emitter exception aborts the run (`none`). -/

/-- Which worksheets `run` processes. -/
def isProcessedSheet (title : Str) : Bool :=
  (str "_dd").isSuffixOf title || (str "_xml").isSuffixOf title

/-- Whether a sheet's reader records any error. -/
def sheetFailed (s : Sheet) : Bool := (createQuestionList s).2.err

/-- The observable outcome of `GiSTXProcessor.run`. -/
structure RunOutput where
  xmlDocs : List (Str × Str)
  manifestWritten : Bool
  zipCreated : Bool
  errorsEncountered : Bool
deriving DecidableEq

/-- `GiSTXProcessor.run`. -/
def runModel (sheets : List Sheet) (xmlValid : Str → Bool) : Option RunOutput :=
  let processed := sheets.filter (fun s => isProcessedSheet s.title)
  let readers := processed.map (fun s => (s.title, createQuestionList s))
  let errorsEncountered := readers.any (fun t => t.2.2.err)
  if errorsEncountered then some ⟨[], false, false, true⟩
  else
    match readers.mapM (fun t => (writeXml t.2.1).map (fun doc => (xmlFileName t.1, doc))) with
    | none => none
    | some docs =>
      let postErr := docs.any (fun d => !xmlValid d.2)
      some ⟨docs, true, !postErr, postErr⟩

/-! ## Lemmas about effect sequencing -/

theorem seqRes_cons (r : Res) (l : List Res) :
    seqRes (r :: l) = r ++ seqRes l := rfl

/-- A log line of one mapped element is a log line of the sequenced pass. -/
theorem mem_seqRes_map_log {α : Type} {f : α → Res} {l : List α} {x : α} {m : Str}
    (hx : x ∈ l) (hm : m ∈ (f x).log) : m ∈ (seqRes (l.map f)).log := by
  induction l with
  | nil => cases hx
  | cons a rest ih =>
    rcases List.mem_cons.mp hx with h | h
    · subst h
      exact List.mem_append.mpr (Or.inl hm)
    · exact List.mem_append.mpr (Or.inr (ih h))

/-- If the sequenced pass set no error flag, no mapped element did. -/
theorem seqRes_map_err_false {α : Type} {f : α → Res} {l : List α} {x : α}
    (hx : x ∈ l) (h : (seqRes (l.map f)).err = false) : (f x).err = false := by
  induction l with
  | nil => cases hx
  | cons a rest ih =>
    have h' : ((f a).err || (seqRes (rest.map f)).err) = false := h
    rcases List.mem_cons.mp hx with hxa | hxr
    · subst hxa
      exact (Bool.or_eq_false_iff.mp h').1
    · exact ih hxr (Bool.or_eq_false_iff.mp h').2

/-- An error cannot vanish from an append. -/
theorem append_err_false {a b : Res} (h : (a ++ b).err = false) :
    a.err = false ∧ b.err = false := Bool.or_eq_false_iff.mp h

/-! ## C5 — field-name shape rules -/

/-- C5 (counterexample): the claim's rule order predicts that `"_A"`, which
starts with an underscore, draws the starts-with-underscore diagnostic; the
code tests the lowercase rule first and reports not-all-lowercase instead. -/
theorem c5_order_counterexample :
    checkFieldName (str "s") (str "_A") = rerr (msgFieldNameNotLower (str "s") (str "_A")) ∧
    msgFieldNameUnderscore (str "s") (str "_A") ∉ (checkFieldName (str "s") (str "_A")).log := by
  decide

/-- C5 (amended): for a non-empty field name the shape rules are evaluated
in the order leading digit, disallowed character, not all-lowercase, leading
underscore, space; only the first matching rule fires, so at most one
diagnostic is produced, referencing the name, and a name satisfying every
rule produces none. -/
theorem c5_fieldname_shape_rules (ws name : Str) (h : name ≠ []) :
    (checkFieldName ws name).log.length ≤ 1 ∧
    ((checkFieldName ws name).log = [] ↔
      startsWithDigit name = false ∧ hasDisallowedChar name = false ∧
      notAllLowercase name = false ∧ startsWithUnderscore name = false ∧
      containsSpace name = false) ∧
    (startsWithDigit name = true →
      (checkFieldName ws name).log = [msgFieldNameDigit ws name]) ∧
    (startsWithDigit name = false → hasDisallowedChar name = true →
      (checkFieldName ws name).log = [msgFieldNameInvalidChar ws name]) ∧
    (startsWithDigit name = false → hasDisallowedChar name = false →
      notAllLowercase name = true →
      (checkFieldName ws name).log = [msgFieldNameNotLower ws name]) ∧
    (startsWithDigit name = false → hasDisallowedChar name = false →
      notAllLowercase name = false → startsWithUnderscore name = true →
      (checkFieldName ws name).log = [msgFieldNameUnderscore ws name]) ∧
    (startsWithDigit name = false → hasDisallowedChar name = false →
      notAllLowercase name = false → startsWithUnderscore name = false →
      containsSpace name = true →
      (checkFieldName ws name).log = [msgFieldNameSpace ws name]) := by
  unfold checkFieldName
  rw [if_neg h]
  cases hd : startsWithDigit name <;> cases hc : hasDisallowedChar name <;>
    cases hl : notAllLowercase name <;> cases hu : startsWithUnderscore name <;>
      cases hs : containsSpace name <;>
        simp [hd, hc, hl, hu, hs, rerr, Res.nil]

/-- C5 (witness): `c5_fieldname_shape_rules` applied to the name `"_a"`,
whose only violation is the leading underscore. -/
theorem c5_fieldname_shape_rules_witness :
    (checkFieldName (str "s") (str "_a")).log =
      [msgFieldNameUnderscore (str "s") (str "_a")] :=
  (c5_fieldname_shape_rules (str "s") (str "_a") (by decide)).2.2.2.2.2.1
    (by decide) (by decide) (by decide) (by decide)

/-- The log of a mapped conditional-error pass is exactly the messages of
the triggering elements. -/
theorem seqRes_ite_log {α : Type} (p : α → Bool) (m : α → Str) (l : List α) :
    (seqRes (l.map (fun x => if p x then rerr (m x) else Res.nil))).log =
      (l.filter p).map m := by
  induction l with
  | nil => rfl
  | cons a rest ih =>
    simp only [List.map_cons, seqRes_cons, Res.append_log, List.filter_cons]
    by_cases hp : p a = true
    · rw [if_pos hp, if_pos hp, ih]; rfl
    · rw [if_neg hp, if_neg hp, ih]; rfl

/-- C9: whenever the required-max-characters pass runs, the log holds the
needs-a-value diagnostic exactly for the questions whose fieldType is text,
text_integer or phone_num, whose questionType is none of automatic,
checkbox, combobox, and whose maxCharacters is the unset sentinel `-9`;
every other combination contributes nothing. -/
theorem c9_required_max_characters (ws : Str) (qs : List Question) :
    ((checkRequiredMaxCharacters ws qs).log =
      (qs.filter needsMaxCharacters).map (fun q => msgMaxCharsNeeded ws q.fieldName)) ∧
    ∀ q : Question, needsMaxCharacters q = true ↔
      ((q.fieldType = str "text" ∨ q.fieldType = str "text_integer" ∨
        q.fieldType = str "phone_num") ∧
       q.questionType ≠ str "automatic" ∧ q.questionType ≠ str "checkbox" ∧
       q.questionType ≠ str "combobox" ∧ q.maxCharacters = str "-9") := by
  constructor
  · exact seqRes_ite_log needsMaxCharacters _ qs
  · intro q
    simp [needsMaxCharacters, List.contains, Bool.and_eq_true, beq_iff_eq]
    tauto

/-- A data row whose blank QuestionText draws a per-row error while its
text/text fieldType with unset MaxCharacters would draw the late
required-max-characters diagnostic. -/
def c2Row : Row :=
  ⟨[str "a", str "text", str "text", str "", str "", str "", str "", str "",
    str "", str "", str "", str "", str "", str ""], false⟩

/-- A sheet with a correct header and the single row `c2Row`. -/
def c2Sheet : Sheet := ⟨str "s_dd", [⟨COLUMN_NAMES, false⟩, c2Row]⟩

/-- C2 (counterexample): on `c2Sheet` a per-row error is recorded, the late
required-max-characters check would add a diagnostic for field `a`, yet that
diagnostic is absent from the sheet's log — the late checks did not run. -/
theorem c2_late_checks_skipped_counterexample :
    (createQuestionList c2Sheet).2.err = true ∧
    msgMaxCharsNeeded (str "s_dd") (str "a") ∈
      (lateChecks (str "s_dd") (createQuestionList c2Sheet).1).log ∧
    msgMaxCharsNeeded (str "s_dd") (str "a") ∉ (createQuestionList c2Sheet).2.log := by
  decide

/-- C2 (amended): the four late whole-sheet checks run only when the header
check and the per-row checks recorded no error; when an earlier error
exists, the sheet's result is exactly the row-phase result and no late
diagnostic is appended. -/
theorem c2_late_checks_gated (s : Sheet) (hdr : Row) (rows : List Row)
    (hrows : s.rows = hdr :: rows)
    (herr : (headerCheck s.title hdr ++ (rowPhase s.title 2 rows).2).err = true) :
    createQuestionList s =
      ((rowPhase s.title 2 rows).1,
        rwarn (str "\rChecking worksheet: '" ++ s.title ++ str "'") ++
          headerCheck s.title hdr ++ (rowPhase s.title 2 rows).2) := by
  unfold createQuestionList
  rw [hrows]
  have hcond : (rwarn (str "\rChecking worksheet: '" ++ s.title ++ str "'") ++
      headerCheck s.title hdr ++ (rowPhase s.title 2 rows).2).err = true := by
    have : (rwarn (str "\rChecking worksheet: '" ++ s.title ++ str "'")).err = false := rfl
    simp only [Res.append_err, this, Bool.false_or]
    simpa [Res.append_err] using herr
  simp only [hcond, Bool.not_true, Bool.false_eq_true, if_false]

/-- C2 (witness): `c2_late_checks_gated` applied to `c2Sheet`. -/
theorem c2_late_checks_gated_witness :
    (createQuestionList c2Sheet).2.log =
      (rwarn (str "\rChecking worksheet: '" ++ str "s_dd" ++ str "'") ++
        headerCheck (str "s_dd") ⟨COLUMN_NAMES, false⟩ ++
        (rowPhase (str "s_dd") 2 [c2Row]).2).log := by
  rw [c2_late_checks_gated c2Sheet ⟨COLUMN_NAMES, false⟩ [c2Row] rfl (by decide)]
  rfl

/-! ## C3 — skip-target ordering -/

theorem Res.mem_append_iff {m : Str} {a b : Res} :
    m ∈ (a ++ b).log ↔ m ∈ a.log ∨ m ∈ b.log := by
  rw [Res.append_log]; exact List.mem_append

/-- A question of the list always resolves in the index built from it. -/
theorem fieldIndexFrom_mem (i : Nat) (qs : List Question) (q : Question) (hq : q ∈ qs) :
    ∃ j, fieldIndexFrom i qs q.fieldName = some j := by
  induction qs generalizing i with
  | nil => cases hq
  | cons a rest ih =>
    rcases List.mem_cons.mp hq with h | h
    · subst h
      unfold fieldIndexFrom
      cases hfi : fieldIndexFrom (i + 1) rest q.fieldName with
      | some j => exact ⟨j, rfl⟩
      | none => exact ⟨i, by simp⟩
    · obtain ⟨j, hj⟩ := ih (i + 1) h
      exact ⟨j, by unfold fieldIndexFrom; rw [hj]⟩

/-- A question of the list always resolves in the field index. -/
theorem fieldIndex_mem (qs : List Question) (q : Question) (hq : q ∈ qs) :
    ∃ j, fieldIndex qs q.fieldName = some j := fieldIndexFrom_mem 0 qs q hq

/-- `splitLines` of the empty cell is empty. -/
theorem splitLines_nil : splitLines ([] : Str) = [] := by decide

/-- A diagnostic of one skip line of one question is a diagnostic of the
whole skip-target pass. -/
theorem checkSkip_line_log_mem {ws : Str} {qs : List Question} {q : Question}
    {line m : Str} (hq : q ∈ qs) (hline : line ∈ splitLines q.skip)
    (hm : m ∈ (checkSkipLine (fieldIndex qs) ws q.fieldName line).log) :
    m ∈ (checkSkipToFieldNames ws qs).log := by
  have hskip : q.skip ≠ [] := by
    intro h
    rw [h, splitLines_nil] at hline
    cases hline
  unfold checkSkipToFieldNames
  apply mem_seqRes_map_log hq
  rw [if_neg hskip]
  exact mem_seqRes_map_log hline hm

/-- If the skip-target pass raised no error, no line of any question did. -/
theorem checkSkip_line_err_false {ws : Str} {qs : List Question} {q : Question}
    {line : Str} (hq : q ∈ qs) (hline : line ∈ splitLines q.skip)
    (herr : (checkSkipToFieldNames ws qs).err = false) :
    (checkSkipLine (fieldIndex qs) ws q.fieldName line).err = false := by
  have hskip : q.skip ≠ [] := by
    intro h
    rw [h, splitLines_nil] at hline
    cases hline
  unfold checkSkipToFieldNames at herr
  have h1 := seqRes_map_err_false hq herr
  rw [if_neg hskip] at h1
  exact seqRes_map_err_false hline h1

/-- C3: whenever the skip-target pass runs, a skip line of at least four
words whose target resolves at or before the current question always draws
a diagnostic — a distinct one for strictly-before and for skip-to-self, and
one for an unresolvable target; hence if the pass records no error, every
skip line has four words and its target sits strictly after its question. -/
theorem c3_skip_target_ordering (ws : Str) (qs : List Question) (q : Question)
    (hq : q ∈ qs) (line : Str) (hline : line ∈ splitLines q.skip) :
    ((skipWords line).length < 4 →
      msgSkipStructure ws q.fieldName line ∈ (checkSkipToFieldNames ws qs).log) ∧
    (4 ≤ (skipWords line).length →
      (fieldIndex qs (skipTargetOf line) = none →
        msgSkipToNonexistent ws q.fieldName (skipTargetOf line) ∈
          (checkSkipToFieldNames ws qs).log) ∧
      (∀ i j, fieldIndex qs (skipTargetOf line) = some i →
        fieldIndex qs q.fieldName = some j →
        (i < j → msgSkipToBefore ws q.fieldName (skipTargetOf line) ∈
          (checkSkipToFieldNames ws qs).log) ∧
        (i = j → msgSkipToSelf ws q.fieldName (skipTargetOf line) ∈
          (checkSkipToFieldNames ws qs).log))) ∧
    ((checkSkipToFieldNames ws qs).err = false →
      4 ≤ (skipWords line).length ∧
      ∃ i j, fieldIndex qs (skipTargetOf line) = some i ∧
        fieldIndex qs q.fieldName = some j ∧ j < i) := by
  refine ⟨?_, ?_, ?_⟩
  · intro hlen
    apply checkSkip_line_log_mem hq hline
    unfold checkSkipLine
    rw [if_pos hlen]
    simp [rerr]
  · intro hlen
    have hnotlt : ¬ (skipWords line).length < 4 := by omega
    constructor
    · intro hnone
      apply checkSkip_line_log_mem hq hline
      unfold checkSkipLine
      rw [if_neg hnotlt]
      refine Res.mem_append_iff.mpr (Or.inr ?_)
      rw [hnone]
      simp [rerr]
    · intro i j hi hj
      constructor
      · intro hij
        apply checkSkip_line_log_mem hq hline
        unfold checkSkipLine
        rw [if_neg hnotlt]
        refine Res.mem_append_iff.mpr (Or.inr ?_)
        rw [hi, hj]
        simp only [Option.getD_some]
        rw [if_pos hij]
        simp [rerr]
      · intro hij
        apply checkSkip_line_log_mem hq hline
        unfold checkSkipLine
        rw [if_neg hnotlt]
        refine Res.mem_append_iff.mpr (Or.inr ?_)
        rw [hi, hj]
        simp only [Option.getD_some]
        rw [if_neg (by omega), if_pos hij]
        simp [rerr]
  · intro herr
    have hres := checkSkip_line_err_false hq hline herr
    unfold checkSkipLine at hres
    by_cases hlen : (skipWords line).length < 4
    · rw [if_pos hlen] at hres
      exact absurd hres (by simp [rerr])
    · rw [if_neg hlen] at hres
      obtain ⟨j, hj⟩ := fieldIndex_mem qs q hq
      refine ⟨by omega, ?_⟩
      have h2 := (append_err_false hres).2
      rw [hj] at h2
      cases hti : fieldIndex qs (skipTargetOf line) with
      | none =>
        rw [hti] at h2
        exact absurd h2 (by simp [rerr])
      | some ti =>
        rw [hti] at h2
        simp only [Option.getD_some] at h2
        by_cases hlt : ti < j
        · rw [if_pos hlt] at h2
          exact absurd h2 (by simp [rerr])
        · by_cases heq : ti = j
          · rw [if_neg hlt, if_pos heq] at h2
            exact absurd h2 (by simp [rerr])
          · exact ⟨ti, j, rfl, hj, by omega⟩

/-- C3 (witness): on a two-question sheet list where the second question's
skip line targets the first, `c3_skip_target_ordering` yields the
skips-to-a-field-BEFORE diagnostic. -/
theorem c3_skip_target_ordering_witness :
    msgSkipToBefore (str "s") (str "b") (str "a") ∈
      (checkSkipToFieldNames (str "s")
        [{fieldName := str "a"},
         {fieldName := str "b", skip := str "preskip: if a = 1, then goto a"}]).log := by
  have h := (c3_skip_target_ordering (str "s")
    [{fieldName := str "a"},
     {fieldName := str "b", skip := str "preskip: if a = 1, then goto a"}]
    {fieldName := str "b", skip := str "preskip: if a = 1, then goto a"}
    (by simp) (str "preskip: if a = 1, then goto a") (by decide)).2.1
  have h2 := ((h (by decide)).2 0 1 (by decide) (by decide)).1 (by decide)
  simpa using h2

/-! ## C4 — logic-check reference ordering -/

/-- Membership in a sequenced mapped pass, both directions. -/
theorem mem_seqRes_map_log_iff {α : Type} {f : α → Res} {l : List α} {m : Str} :
    m ∈ (seqRes (l.map f)).log ↔ ∃ x ∈ l, m ∈ (f x).log := by
  induction l with
  | nil => simp [seqRes, Res.nil]
  | cons a rest ih =>
    simp only [List.map_cons, seqRes_cons, Res.append_log, List.mem_append, ih,
      List.mem_cons]
    constructor
    · rintro (h | ⟨x, hx, hm⟩)
      · exact ⟨a, Or.inl rfl, h⟩
      · exact ⟨x, Or.inr hx, hm⟩
    · rintro ⟨x, hx | hx, hm⟩
      · subst hx; exact Or.inl hm
      · exact Or.inr ⟨x, hx, hm⟩

/-- Two lists with a common extension are prefix-comparable; so two
prefix-incomparable lists never start the same list. -/
theorem append_ne_of_not_prefix {x y : Str}
    (hxy : x.isPrefixOf y = false) (hyx : y.isPrefixOf x = false) (a b : Str) :
    x ++ a ≠ y ++ b := by
  intro he
  have hx : x <+: y ++ b := he ▸ List.prefix_append x a
  have hy : y <+: y ++ b := List.prefix_append y b
  rcases List.prefix_or_prefix_of_prefix hx hy with h | h
  · rw [List.isPrefixOf_iff_prefix.mpr h] at hxy
    cases hxy
  · rw [List.isPrefixOf_iff_prefix.mpr h] at hyx
    cases hyx

/-- The two diagnostics of `_check_logic_field_names` name their identifier
injectively and never coincide. -/
theorem msgLogic_inj (ws curField : Str) (r r' : Str) :
    (msgLogicAfter ws curField r = msgLogicAfter ws curField r' → r = r') ∧
    (msgLogicNonexistent ws curField r = msgLogicNonexistent ws curField r' → r = r') ∧
    msgLogicAfter ws curField r ≠ msgLogicNonexistent ws curField r' := by
  unfold msgLogicAfter msgLogicNonexistent
  simp only [List.append_assoc]
  refine ⟨?_, ?_, ?_⟩
  · intro h
    have h1 := (List.append_right_inj _).mp h
    have h2 := (List.append_right_inj _).mp h1
    have h3 := (List.append_right_inj _).mp h2
    have h4 := (List.append_right_inj _).mp h3
    exact (List.append_right_inj _).mp h4
  · intro h
    have h1 := (List.append_right_inj _).mp h
    have h2 := (List.append_right_inj _).mp h1
    have h3 := (List.append_right_inj _).mp h2
    have h4 := (List.append_right_inj _).mp h3
    exact (List.append_right_inj _).mp h4
  · intro h
    have h1 := (List.append_right_inj _).mp h
    have h2 := (List.append_right_inj _).mp h1
    have h3 := (List.append_right_inj _).mp h2
    have h4 := (List.append_right_inj _).mp h3
    exact append_ne_of_not_prefix (by decide) (by decide) r r' h4

/-- A diagnostic of one logic check of one question is a diagnostic of the
whole logic-reference pass. -/
theorem checkLogicOne_log_mem {ws : Str} {qs : List Question} {q : Question}
    {lc m : Str} (hq : q ∈ qs) (hlc : lc ∈ q.logicChecks)
    (hm : m ∈ (checkLogicOne (fieldIndex qs) ws q.fieldName lc).log) :
    m ∈ (checkLogicFieldNames ws qs).log := by
  unfold checkLogicFieldNames
  exact mem_seqRes_map_log hq (mem_seqRes_map_log hlc hm)

/-- C4: for every identifier the reference pass extracts from a logic-check
expression (word runs outside string literals, keywords and/or/not dropped):
an unresolvable identifier draws the nonexistent-FieldName diagnostic naming
it, an identifier resolving strictly after the current question draws the
FieldName-AFTER diagnostic naming it, and an identifier resolving at or
before the current question draws no diagnostic naming it from this check. -/
theorem c4_logic_reference_resolution (ws : Str) (qs : List Question) (q : Question)
    (hq : q ∈ qs) (lc : Str) (hlc : lc ∈ q.logicChecks) (ref : Str)
    (href : ref ∈ referencedIds (cleanExpressionOf lc)) :
    (fieldIndex qs ref = none →
      msgLogicNonexistent ws q.fieldName ref ∈ (checkLogicFieldNames ws qs).log) ∧
    (∀ i j, fieldIndex qs ref = some i → fieldIndex qs q.fieldName = some j → j < i →
      msgLogicAfter ws q.fieldName ref ∈ (checkLogicFieldNames ws qs).log) ∧
    (∀ i j, fieldIndex qs ref = some i → fieldIndex qs q.fieldName = some j → i ≤ j →
      msgLogicAfter ws q.fieldName ref ∉
        (checkLogicOne (fieldIndex qs) ws q.fieldName lc).log ∧
      msgLogicNonexistent ws q.fieldName ref ∉
        (checkLogicOne (fieldIndex qs) ws q.fieldName lc).log) := by
  refine ⟨?_, ?_, ?_⟩
  · intro hnone
    apply checkLogicOne_log_mem hq hlc
    unfold checkLogicOne
    apply mem_seqRes_map_log href
    unfold logicRefRes
    rw [hnone]
    simp [rerr]
  · intro i j hi hj hij
    apply checkLogicOne_log_mem hq hlc
    unfold checkLogicOne
    apply mem_seqRes_map_log href
    unfold logicRefRes
    rw [hi, hj]
    simp only [Option.getD_some]
    rw [if_pos hij]
    simp [rerr]
  · intro i j hi hj hij
    have absent : ∀ m, m ∈ (checkLogicOne (fieldIndex qs) ws q.fieldName lc).log →
        m ≠ msgLogicAfter ws q.fieldName ref ∧
        m ≠ msgLogicNonexistent ws q.fieldName ref := by
      intro m hm
      unfold checkLogicOne at hm
      obtain ⟨ref', _, hm'⟩ := mem_seqRes_map_log_iff.mp hm
      unfold logicRefRes at hm'
      cases hri : fieldIndex qs ref' with
      | none =>
        rw [hri] at hm'
        have hmeq : m = msgLogicNonexistent ws q.fieldName ref' := by
          simpa [rerr] using hm'
        subst hmeq
        constructor
        · intro h
          exact (msgLogic_inj ws q.fieldName ref ref').2.2 h.symm
        · intro h
          have : ref' = ref := (msgLogic_inj ws q.fieldName ref' ref).2.1 h
          subst this
          rw [hri] at hi
          cases hi
      | some i' =>
        rw [hri] at hm'
        by_cases hgt : i' > (fieldIndex qs q.fieldName).getD 0
        · have hmeq : m = msgLogicAfter ws q.fieldName ref' := by
            simpa [hgt, rerr] using hm'
          subst hmeq
          constructor
          · intro h
            have : ref' = ref := (msgLogic_inj ws q.fieldName ref' ref).1 h
            subst this
            rw [hri] at hi
            injection hi with hi'
            subst hi'
            rw [hj] at hgt
            simp only [Option.getD_some] at hgt
            omega
          · intro h
            exact (msgLogic_inj ws q.fieldName ref' ref).2.2 h
        · simp [hgt, rerr, Res.nil] at hm'
    constructor
    · intro hmem
      exact (absent _ hmem).1 rfl
    · intro hmem
      exact (absent _ hmem).2 rfl

/-- C4 (witness): on a two-question list where the first question's logic
check references the later field `b` and the unknown `zzz`,
`c4_logic_reference_resolution` yields both diagnostics. -/
theorem c4_logic_reference_resolution_witness :
    msgLogicAfter (str "s") (str "a") (str "b") ∈
      (checkLogicFieldNames (str "s")
        [{fieldName := str "a", logicChecks := [str "b = 1 and zzz = 2;'m'"]},
         {fieldName := str "b"}]).log ∧
    msgLogicNonexistent (str "s") (str "a") (str "zzz") ∈
      (checkLogicFieldNames (str "s")
        [{fieldName := str "a", logicChecks := [str "b = 1 and zzz = 2;'m'"]},
         {fieldName := str "b"}]).log := by
  constructor
  · exact ((c4_logic_reference_resolution (str "s")
      [{fieldName := str "a", logicChecks := [str "b = 1 and zzz = 2;'m'"]},
       {fieldName := str "b"}]
      {fieldName := str "a", logicChecks := [str "b = 1 and zzz = 2;'m'"]}
      (by simp) (str "b = 1 and zzz = 2;'m'") (by simp) (str "b")
      (by decide)).2.1 1 0 (by decide) (by decide) (by decide))
  · exact ((c4_logic_reference_resolution (str "s")
      [{fieldName := str "a", logicChecks := [str "b = 1 and zzz = 2;'m'"]},
       {fieldName := str "b"}]
      {fieldName := str "a", logicChecks := [str "b = 1 and zzz = 2;'m'"]}
      (by simp) (str "b = 1 and zzz = 2;'m'") (by simp) (str "zzz")
      (by decide)).1 (by decide))

/-! ## C6 — filter operator parsing -/

/-- C6: on the filter line `code >= 3` the ordered alternation of
`FILTER_MATCH_RE` tries `>` before `>=`, so the parser records operator
`&gt;` with value `= 3` — not operator `&gt;=` with value `3` as the two-
character operator branch (reachable only as dead code in
`_parse_operator`) would give. -/
theorem c6_filter_ge_operator_bug :
    filterMatch (str "code >= 3") = some (str "code", some (str ">"), str "= 3") ∧
    (parseDynamicLine (str "s") (str "f") {} (str "filter:code >= 3")).1.responseFilters =
      [⟨str "code", str "= 3", str "&gt;"⟩] ∧
    (parseDynamicLine (str "s") (str "f") {} (str "filter:code >= 3")).1.responseFilters ≠
      [⟨str "code", str "3", str "&gt;="⟩] := by
  refine ⟨by decide, ?_, ?_⟩ <;> decide

/-! ## C8 — determinism of the pipeline -/

/-- C8: the parse–validate–emit pipeline is a pure function of the sheet's
title and cell contents: two passes over the same contents (two fresh
reader/emitter instances, as `run` creates per sheet) give the same Question
list and byte-identical markup.  In this embedding the property holds by
construction, since no step reads anything but its arguments. -/
theorem c8_pipeline_deterministic (s t : Sheet) (htitle : s.title = t.title)
    (hrows : s.rows = t.rows) (hok : (createQuestionList s).2.err = false) :
    createQuestionList s = createQuestionList t ∧
    writeXml (createQuestionList s).1 = writeXml (createQuestionList t).1 := by
  obtain ⟨st, sr⟩ := s
  obtain ⟨tt, tr⟩ := t
  cases htitle
  cases hrows
  exact ⟨rfl, rfl⟩

/-- A well-formed one-question sheet used by the run-level witnesses. -/
def demoSheet : Sheet :=
  ⟨str "demo_dd",
   [⟨COLUMN_NAMES, false⟩,
    ⟨[str "age", str "radio", str "integer", str "Age?", str "", str "1:Yes\n2:No",
      str "", str "", str "", str "", str "", str "", str "", str ""], false⟩]⟩

/-- A sheet whose header row is wrong, so its reader records an error. -/
def badSheet : Sheet := ⟨str "bad_dd", [⟨[], false⟩]⟩

/-- C8 (witness): `c8_pipeline_deterministic` applied twice to `demoSheet`,
whose processing records no error. -/
theorem c8_pipeline_deterministic_witness :
    createQuestionList demoSheet = createQuestionList demoSheet ∧
    writeXml (createQuestionList demoSheet).1 = writeXml (createQuestionList demoSheet).1 :=
  c8_pipeline_deterministic demoSheet demoSheet rfl rfl (by decide)

/-! ## C1 — the run-level two-phase gate -/

/-- C1: all sheets are read and validated before any emission; if any
processed sheet's reader records an error, the run emits zero markup
documents, writes no manifest and creates no archive — also for the sheets
that themselves had no errors. -/
theorem c1_two_phase_gate (sheets : List Sheet) (xmlValid : Str → Bool)
    (s : Sheet) (hs : s ∈ sheets) (hproc : isProcessedSheet s.title = true)
    (herr : sheetFailed s = true) :
    runModel sheets xmlValid = some ⟨[], false, false, true⟩ := by
  have hmem : s ∈ sheets.filter (fun s => isProcessedSheet s.title) :=
    List.mem_filter.mpr ⟨hs, hproc⟩
  have hany : ((sheets.filter (fun s => isProcessedSheet s.title)).map
      (fun s => (s.title, createQuestionList s))).any (fun t => t.2.2.err) = true :=
    List.any_eq_true.mpr ⟨(s.title, createQuestionList s),
      List.mem_map_of_mem _ hmem, by simpa [sheetFailed] using herr⟩
  simp only [runModel, hany, if_true]

/-- C1 (witness): a run over `badSheet` (whose reader errs) and `demoSheet`
(error-free) produces no document, no manifest and no archive. -/
theorem c1_two_phase_gate_witness :
    runModel [badSheet, demoSheet] (fun _ => true) = some ⟨[], false, false, true⟩ :=
  c1_two_phase_gate [badSheet, demoSheet] (fun _ => true) badSheet (by simp)
    (by decide) (by decide)

/-! ## C10 — automatic questions carry no text child -/

/-- The opener of a `<text>` child fragment. -/
def textPfx : Str := str "\t\t<text>"

/-- A pattern prefix-incomparable with `a` is no prefix of `a ++ x`. -/
theorem not_isPrefixOf_append {p a : Str} (h1 : p.isPrefixOf a = false)
    (h2 : a.isPrefixOf p = false) (x : Str) : p.isPrefixOf (a ++ x) = false := by
  by_contra h
  rw [Bool.not_eq_false] at h
  have hp : p <+: a ++ x := List.isPrefixOf_iff_prefix.mp h
  have ha : a <+: a ++ x := List.prefix_append a x
  rcases List.prefix_or_prefix_of_prefix hp ha with hh | hh
  · rw [List.isPrefixOf_iff_prefix.mpr hh] at h1
    cases h1
  · rw [List.isPrefixOf_iff_prefix.mpr hh] at h2
    cases h2

/-- Nothing that starts with three or more tabs is a `<text>` child. -/
theorem tabs_not_text {n : Nat} (hn : 3 ≤ n) (x : Str) :
    textPfx.isPrefixOf (List.replicate n '\t' ++ x) = false := by
  have hsplit : List.replicate n '\t' = List.replicate 3 '\t' ++ List.replicate (n - 3) '\t' := by
    rw [← List.replicate_add]
    congr 1
    omega
  rw [hsplit, List.append_assoc]
  exact not_isPrefixOf_append (by decide) (by decide) _

/-- No fragment of a calculation part at indent three or deeper is a
`<text>` child. -/
theorem partFrags_not_text :
    ∀ (k : Nat) (p : CalculationPart) (n : Nat), sizeOf p ≤ k → 3 ≤ n →
      ∀ s ∈ generateCalculationPartFrags p n, textPfx.isPrefixOf s = false := by
  intro k
  induction k with
  | zero =>
    rintro ⟨t, cv, lf, qsql, qps, mo, parts, csep⟩ n hk
    simp only [CalculationPart.mk.sizeOf_spec] at hk
    omega
  | succ k ih =>
    rintro ⟨t, cv, lf, qsql, qps, mo, parts, csep⟩ n hk hn s hmem
    have hparts : ∀ nested ∈ parts, sizeOf nested ≤ k := by
      intro nested hne
      have := List.sizeOf_lt_of_mem hne
      simp only [CalculationPart.mk.sizeOf_spec] at hk
      omega
    unfold generateCalculationPartFrags at hmem
    cases t <;>
      simp only [List.mem_singleton, List.mem_append, List.mem_cons, List.mem_map,
        List.mem_flatten, List.mem_attach, List.not_mem_nil, or_false, false_or,
        true_and, List.append_assoc] at hmem
    case CONSTANT =>
      subst hmem
      exact tabs_not_text hn _
    case LOOKUP =>
      subst hmem
      exact tabs_not_text hn _
    case QUERY =>
      rcases hmem with (h | h) | ⟨param, _, h⟩ | h
      · subst h; exact tabs_not_text hn _
      · subst h; exact tabs_not_text hn _
      · subst h; exact tabs_not_text hn _
      · subst h; exact tabs_not_text hn _
    case MATH =>
      rcases hmem with h | h | h
      · subst h; exact tabs_not_text hn _
      · obtain ⟨l, ⟨nested, h1⟩, h2⟩ := h
        subst h1
        exact ih nested.1 (n + 1) (hparts nested.1 nested.2) (by omega) s h2
      · subst h; exact tabs_not_text hn _
    case CONCAT =>
      rcases hmem with h | h | h
      · subst h; exact tabs_not_text hn _
      · obtain ⟨l, ⟨nested, h1⟩, h2⟩ := h
        subst h1
        exact ih nested.1 (n + 1) (hparts nested.1 nested.2) (by omega) s h2
      · subst h; exact tabs_not_text hn _

/-- Fragments opening with a literal other than the text opener are not
`<text>` children. -/
theorem lit_not_text {a : Str} (h1 : textPfx.isPrefixOf a = false)
    (h2 : a.isPrefixOf textPfx = false) (x : Str) :
    textPfx.isPrefixOf (a ++ x) = false := not_isPrefixOf_append h1 h2 x

/-- `joinWith` keeps the first part in front. -/
theorem joinWith_head (sep x : Str) (xs : List Str) :
    ∃ r, joinWith sep (x :: xs) = x ++ r := by
  cases xs with
  | nil => exact ⟨[], (List.append_nil x).symm⟩
  | cons y rest => exact ⟨sep ++ joinWith sep (y :: rest), by simp [joinWith, List.append_assoc]⟩

/-- `pySplitStrF` never returns the empty list. -/
theorem pySplitStrF_ne_nil (sep : Str) (fuel : Nat) (s : Str) :
    pySplitStrF sep fuel s ≠ [] := by
  match fuel, s with
  | fuel, [] => cases fuel <;> simp [pySplitStrF]
  | 0, c :: rest => simp [pySplitStrF]
  | fuel + 1, c :: rest =>
    unfold pySplitStrF
    split
    · simp
    · split <;> simp

/-- `pySplitStr` never returns the empty list. -/
theorem pySplitStr_ne_nil (sep s : Str) : pySplitStr sep s ≠ [] :=
  pySplitStrF_ne_nil sep s.length s

/-- A left-associated triple append keeps its first factor in front. -/
theorem head_append3 (t x y z : Str) : ∃ r, ((t ++ x) ++ y) ++ z = t ++ r :=
  ⟨(x ++ y) ++ z, by simp [List.append_assoc]⟩

/-- Whatever `_generate_logic_check` returns starts with three tabs. -/
theorem generateLogicCheck_tabs {lc g : Str} (h : generateLogicCheck lc = some g) :
    ∃ rest, g = str "\t\t\t" ++ rest := by
  unfold generateLogicCheck at h
  cases hp : (pySplitFirst ';' lc).map pyStrip with
  | nil => rw [hp] at h; cases h
  | cons a tail =>
    cases tail with
    | nil => rw [hp] at h; cases h
    | cons b tail2 =>
      cases tail2 with
      | cons c tail3 => rw [hp] at h; cases h
      | nil =>
        rw [hp] at h
        simp only [] at h
        by_cases hor : isSubstr (str " or ")
            (subBareGt (subBareLt (pyReplace (str ">=") (str "&gt;=")
              (pyReplace (str "<=") (str "&lt;=") (pyReplace (str "<>") (str "&lt;&gt;")
                (pyReplace (str "!=") (str "&lt;&gt;") a)))))) = true
        · rw [if_pos hor] at h
          obtain ⟨p0, prest, hparts⟩ := List.exists_cons_of_ne_nil
            (pySplitStr_ne_nil (str " or ")
              (subBareGt (subBareLt (pyReplace (str ">=") (str "&gt;=")
                (pyReplace (str "<=") (str "&lt;=") (pyReplace (str "<>") (str "&lt;&gt;")
                  (pyReplace (str "!=") (str "&lt;&gt;") a)))))))
          rw [hparts] at h
          simp only [List.enum_cons, List.map_cons, List.cons_append] at h
          obtain ⟨r, hr⟩ := joinWith_head (str "\n")
            (str "\t\t\t" ++ pyStrip p0 ++
              (if 0 < (p0 :: prest).length - 1 then str " or" else []))
            (((prest.enumFrom 1).map fun p =>
              str "\t\t\t" ++ pyStrip p.2 ++
                (if p.1 < (p0 :: prest).length - 1 then str " or" else [])) ++
              [str ";", str "\t\t\t" ++ b])
          rw [hr] at h
          injection h with h
          rw [← h]
          exact head_append3 _ _ _ _
        · rw [if_neg hor] at h
          injection h with h
          rw [← h]
          exact head_append3 _ _ _ _

/-- Whatever `_generate_skip` returns starts with the skip opener. -/
theorem generateSkip_head {s ty g : Str} (h : generateSkip s ty = some g) :
    ∃ rest, g = str "\t\t\t<skip fieldname='" ++ rest := by
  simp only [generateSkip] at h
  split at h
  · cases h
  · split at h
    · cases h
    · injection h with h
      rw [← h]
      simp only [List.append_assoc]
      exact ⟨_, rfl⟩

/-- No fragment emitted for one case-condition block is a `<text>` child. -/
theorem caseCond_not_text (cond : CaseCondition) (s : Str)
    (hmem : s ∈ [str "\t\t\t<when field='" ++ cond.field ++ str "' operator='" ++
        convertOperatorToXml cond.operator ++ str "' value='" ++ cond.value ++ str "'>\n"] ++
      (match cond.result with
       | some result => generateCalculationPartFrags result 4
       | none => []) ++
      [str "\t\t\t</when>\n"]) : textPfx.isPrefixOf s = false := by
  simp only [List.mem_append, List.mem_singleton] at hmem
  rcases hmem with (h | h) | h
  · subst h
    simp only [List.append_assoc]
    exact lit_not_text (by decide) (by decide) _
  · cases hres : cond.result with
    | none => rw [hres] at h; cases h
    | some result =>
      rw [hres] at h
      exact partFrags_not_text (sizeOf result) result 4 le_rfl (by omega) s h
  · subst h; decide

/-- No fragment of `_generate_calculation_xml` is a `<text>` child. -/
theorem calcFrags_not_text (q : Question) :
    ∀ s ∈ generateCalculationFrags q, textPfx.isPrefixOf s = false := by
  intro s hmem
  unfold generateCalculationFrags at hmem
  cases hct : q.calculationType
  case QUERY =>
    rw [hct, if_pos rfl] at hmem
    simp only [List.mem_append, List.mem_cons, List.mem_map, List.not_mem_nil,
      or_false, List.mem_singleton, List.append_assoc] at hmem
    rcases hmem with (h | h) | ⟨param, _, h⟩ | h
    · subst h; decide
    · subst h; exact lit_not_text (by decide) (by decide) _
    · subst h; exact lit_not_text (by decide) (by decide) _
    · subst h; decide
  case CASE =>
    rw [hct, if_neg (by decide), if_pos rfl] at hmem
    simp only [List.mem_append, List.mem_cons, List.mem_map, List.mem_flatten,
      List.not_mem_nil, or_false, false_or, List.mem_singleton] at hmem
    rcases hmem with ((h | ⟨l, ⟨cond, _, hl⟩, h⟩) | h) | h
    · subst h; decide
    · subst hl
      exact caseCond_not_text cond s (by simpa using h)
    · rcases hel : q.calculationCaseElse with _ | e
      all_goals rw [hel] at h
      · cases h
      · simp only [List.mem_append, List.mem_cons, List.not_mem_nil, or_false,
          List.mem_singleton] at h
        rcases h with (h | h) | h
        · subst h; decide
        · exact partFrags_not_text (sizeOf e) e 4 le_rfl (by omega) s h
        · subst h; decide
    · subst h; decide
  case CONSTANT =>
    rw [hct, if_neg (by decide), if_neg (by decide), if_pos rfl] at hmem
    simp only [List.mem_singleton, List.append_assoc] at hmem
    subst hmem
    exact lit_not_text (by decide) (by decide) _
  case LOOKUP =>
    rw [hct, if_neg (by decide), if_neg (by decide), if_neg (by decide), if_pos rfl] at hmem
    simp only [List.mem_singleton, List.append_assoc] at hmem
    subst hmem
    exact lit_not_text (by decide) (by decide) _
  case MATH =>
    rw [hct, if_neg (by decide), if_neg (by decide), if_neg (by decide), if_neg (by decide), if_pos rfl] at hmem
    simp only [List.mem_append, List.mem_cons, List.mem_map, List.mem_flatten,
      List.not_mem_nil, or_false, false_or, List.mem_singleton, List.mem_attach,
      true_and, List.append_assoc] at hmem
    rcases hmem with h | ⟨l, ⟨part, hpmem, hl⟩, h⟩ | h
    · subst h; exact lit_not_text (by decide) (by decide) _
    · subst hl
      exact partFrags_not_text (sizeOf part) part 3 le_rfl (by omega) s h
    · subst h; decide
  case CONCAT =>
    rw [hct, if_neg (by decide), if_neg (by decide), if_neg (by decide), if_neg (by decide), if_neg (by decide), if_pos rfl] at hmem
    simp only [List.mem_append, List.mem_cons, List.mem_map, List.mem_flatten,
      List.not_mem_nil, or_false, false_or, List.mem_singleton, List.mem_attach,
      true_and, List.append_assoc] at hmem
    rcases hmem with h | ⟨l, ⟨part, hpmem, hl⟩, h⟩ | h
    · subst h; exact lit_not_text (by decide) (by decide) _
    · subst hl
      exact partFrags_not_text (sizeOf part) part 3 le_rfl (by omega) s h
    · subst h; decide
  case AGE_FROM_DATE =>
    rw [hct, if_neg (by decide), if_neg (by decide), if_neg (by decide), if_neg (by decide), if_neg (by decide), if_neg (by decide), if_pos rfl] at hmem
    simp only [List.mem_singleton, List.append_assoc] at hmem
    subst hmem
    exact lit_not_text (by decide) (by decide) _
  case AGE_AT_DATE =>
    rw [hct, if_neg (by decide), if_neg (by decide), if_neg (by decide), if_neg (by decide), if_neg (by decide), if_neg (by decide), if_neg (by decide), if_pos rfl] at hmem
    simp only [List.mem_singleton, List.append_assoc] at hmem
    subst hmem
    exact lit_not_text (by decide) (by decide) _
  case DATE_OFFSET =>
    rw [hct, if_neg (by decide), if_neg (by decide), if_neg (by decide), if_neg (by decide), if_neg (by decide), if_neg (by decide), if_neg (by decide), if_neg (by decide), if_pos rfl] at hmem
    simp only [List.mem_singleton, List.append_assoc] at hmem
    subst hmem
    exact lit_not_text (by decide) (by decide) _
  case DATE_DIFF =>
    rw [hct, if_neg (by decide), if_neg (by decide), if_neg (by decide), if_neg (by decide), if_neg (by decide), if_neg (by decide), if_neg (by decide), if_neg (by decide), if_neg (by decide), if_pos rfl] at hmem
    simp only [List.mem_singleton, List.append_assoc] at hmem
    subst hmem
    exact lit_not_text (by decide) (by decide) _
  case NONE =>
    rw [hct, if_neg (by decide), if_neg (by decide), if_neg (by decide), if_neg (by decide), if_neg (by decide), if_neg (by decide), if_neg (by decide), if_neg (by decide), if_neg (by decide), if_neg (by decide)] at hmem
    cases hmem

/-- No static `<response>` fragment is a `<text>` child. -/
theorem staticResponseFrags_not_text (r : Str) :
    ∀ s ∈ staticResponseFrags r, textPfx.isPrefixOf s = false := by
  intro s hs
  simp only [staticResponseFrags] at hs
  split at hs
  · simp only [List.mem_singleton] at hs
    subst hs
    decide
  · obtain ⟨resp, _, h⟩ := List.mem_map.mp hs
    cases hf : pyFind ':' resp <;> rw [hf] at h <;> rw [← h] <;>
      simp only [List.append_assoc] <;>
        exact lit_not_text (by decide) (by decide) _

/-- No fragment of the `<responses>` block is a `<text>` child. -/
theorem responsesFrags_not_text (q : Question) :
    ∀ s ∈ responsesFrags q, textPfx.isPrefixOf s = false := by
  intro s hs
  simp only [responsesFrags] at hs
  split at hs
  case isFalse => cases hs
  case isTrue =>
    simp only [List.append_assoc, List.mem_append, List.mem_cons, List.not_mem_nil,
      or_false, List.mem_singleton] at hs
    rcases hs with h | h | h | h | h | h | h | h | h | h
    · subst h
      exact lit_not_text (by decide) (by decide) _
    · obtain ⟨flt, _, h⟩ := List.mem_map.mp h
      rw [← h]
      exact lit_not_text (by decide) (by decide) _
    · split at h
      · simp only [List.mem_singleton] at h
        subst h
        exact lit_not_text (by decide) (by decide) _
      · cases h
    · split at h
      · simp only [List.mem_singleton] at h
        subst h
        exact lit_not_text (by decide) (by decide) _
      · cases h
    · cases hd : q.responseDistinct <;> rw [hd] at h
      · cases h
      · simp only [List.mem_singleton] at h
        subst h
        exact lit_not_text (by decide) (by decide) _
    · split at h
      · simp only [List.mem_singleton] at h
        subst h
        exact lit_not_text (by decide) (by decide) _
      · cases h
    · split at h
      · simp only [List.mem_singleton] at h
        subst h
        exact lit_not_text (by decide) (by decide) _
      · cases h
    · split at h
      · simp only [List.mem_singleton] at h
        subst h
        exact lit_not_text (by decide) (by decide) _
      · cases h
    · split at h
      · exact staticResponseFrags_not_text q.responses s h
      · cases h
    · subst h
      decide

/-- A member of a successful `mapM` run comes from some list element. -/
theorem mapM_mem {α β : Type} (f : α → Option β) :
    ∀ (l : List α) (gen : List β), l.mapM f = some gen → ∀ g ∈ gen, ∃ a ∈ l, f a = some g := by
  intro l
  induction l with
  | nil =>
    intro gen h g hg
    simp only [List.mapM_nil, Option.pure_def, Option.some.injEq] at h
    subst h
    cases hg
  | cons a rest ih =>
    intro gen h g hg
    rw [List.mapM_cons] at h
    cases hfa : f a with
    | none => rw [hfa] at h; cases h
    | some b =>
      rw [hfa] at h
      cases hrest : rest.mapM f with
      | none =>
        rw [hrest] at h
        cases h
      | some bs =>
        rw [hrest] at h
        simp only [Option.pure_def, Option.bind_eq_bind, Option.some_bind,
          Option.some.injEq] at h
        subst h
        rcases List.mem_cons.mp hg with hgb | hgbs
        · exact ⟨a, List.mem_cons_self a rest, by rw [hfa, hgb]⟩
        · obtain ⟨x, hx, hfx⟩ := ih bs hrest g hgbs
          exact ⟨x, List.mem_cons_of_mem a hx, hfx⟩

/-- No fragment of the skip blocks is a `<text>` child. -/
theorem skipFrags_not_text (q : Question) (sf : List Str)
    (hsf : skipBlockFrags q = some sf) :
    ∀ s ∈ sf, textPfx.isPrefixOf s = false := by
  simp only [skipBlockFrags] at hsf
  split at hsf
  · injection hsf with hsf
    subst hsf
    intro s hs
    cases hs
  · split at hsf
    case h_2 => cases hsf
    case h_1 preGen postGen hpre hpost =>
      injection hsf with hsf
      subst hsf
      intro s hs
      simp only [List.mem_append] at hs
      have hblock : ∀ (gen : List Str) (lines : List Str) (ty : Str)
          (hgen : lines.mapM (fun l => generateSkip l ty) = some gen)
          (opener closer : Str)
          (hop : textPfx.isPrefixOf opener = false)
          (hcl : textPfx.isPrefixOf closer = false),
          ∀ t ∈ [opener] ++ gen.map (· ++ str "\n") ++ [closer],
            textPfx.isPrefixOf t = false := by
        intro gen lines ty hgen opener closer hop hcl t ht
        simp only [List.mem_append, List.mem_singleton] at ht
        rcases ht with (ht | ht) | ht
        · subst ht; exact hop
        · obtain ⟨g, hg, ht⟩ := List.mem_map.mp ht
          obtain ⟨l, hl, hgl⟩ := mapM_mem _ lines gen hgen g hg
          obtain ⟨rest, hrest⟩ := generateSkip_head hgl
          rw [← ht, hrest]
          simp only [List.append_assoc]
          exact lit_not_text (by decide) (by decide) _
        · subst ht; exact hcl
      rcases hs with hs | hs
      · split at hs
        · exact hblock preGen _ (str "preSkip") hpre (str "\t\t<preskip>\n")
            (str "\t\t</preskip>\n") (by decide) (by decide) s (by simpa using hs)
        · cases hs
      · split at hs
        · exact hblock postGen _ (str "postSkip") hpost (str "\t\t<postskip>\n")
            (str "\t\t</postskip>\n") (by decide) (by decide) s (by simpa using hs)
        · cases hs

/-- No fragment of the logic-check blocks is a `<text>` child. -/
theorem logicFrags_not_text (q : Question) (lf : List Str)
    (hlf : logicCheckFrags q = some lf) :
    ∀ s ∈ lf, textPfx.isPrefixOf s = false := by
  unfold logicCheckFrags at hlf
  cases hm : q.logicChecks.mapM generateLogicCheck with
  | none => rw [hm] at hlf; cases hlf
  | some gs =>
    rw [hm] at hlf
    injection hlf with hlf
    subst hlf
    intro s hs
    simp only [List.mem_flatten, List.mem_map] at hs
    obtain ⟨l, ⟨g, hg, hl⟩, hs⟩ := hs
    subst hl
    simp only [List.mem_cons, List.not_mem_nil, or_false] at hs
    rcases hs with h | h | h
    · subst h; decide
    · obtain ⟨lc, _, hlcg⟩ := mapM_mem _ _ _ hm g hg
      obtain ⟨rest, hrest⟩ := generateLogicCheck_tabs hlcg
      subst h
      rw [hrest]
      simp only [List.append_assoc]
      exact lit_not_text (by decide) (by decide) _
    · subst h; decide

/-- No special-button fragment is a `<text>` child. -/
theorem buttonFrags_not_text (q : Question) :
    ∀ s ∈ buttonFrags q, textPfx.isPrefixOf s = false := by
  intro s h
  unfold buttonFrags at h
  simp only [List.mem_append] at h
  rcases h with (h | h) | h
  · split at h
    · simp only [List.mem_singleton] at h; subst h; decide
    · cases h
  · split at h
    · simp only [List.mem_singleton] at h; subst h; decide
    · cases h
  · split at h
    · simp only [List.mem_singleton] at h; subst h; decide
    · cases h

/-- C10: a question of type `automatic` is emitted without any `<text>`
child even when its question text is non-empty, while for every other
question type the `<text>` child holding the question text is the first
child fragment of the `<question>` element. -/
theorem c10_automatic_no_text_child (q : Question) (children : List Str)
    (hch : questionChildren q = some children) :
    (q.questionType = str "automatic" →
      ∀ s ∈ children, textPfx.isPrefixOf s = false) ∧
    (q.questionType ≠ str "automatic" →
      children.head? = some (str "\t\t<text>" ++ q.questionText ++ str "</text>\n")) := by
  simp only [questionChildren] at hch
  cases hlf : logicCheckFrags q with
  | none => rw [hlf] at hch; cases hch
  | some lf =>
    cases hsf : skipBlockFrags q with
    | none => rw [hlf, hsf] at hch; cases hch
    | some sf =>
      rw [hlf, hsf] at hch
      simp only [Option.some.injEq] at hch
      subst hch
      constructor
      · intro hauto s hs
        simp only [List.append_assoc, List.mem_append] at hs
        rcases hs with h | h | h | h | h | h | h | h | h | h | h
        · rw [hauto, if_neg (by decide)] at h
          cases h
        · split at h
          · exact calcFrags_not_text q s h
          · cases h
        · split at h
          · simp only [List.mem_singleton] at h
            subst h
            exact lit_not_text (by decide) (by decide) _
          · cases h
        · split at h
          · simp only [List.mem_singleton] at h
            subst h
            exact lit_not_text (by decide) (by decide) _
          · cases h
        · split at h
          · simp only [List.mem_cons, List.not_mem_nil, or_false] at h
            rcases h with h | h | h
            · subst h; decide
            · subst h
              exact lit_not_text (by decide) (by decide) _
            · subst h; decide
          · cases h
        · split at h
          · simp only [List.mem_cons, List.not_mem_nil, or_false] at h
            rcases h with h | h | h
            · subst h; decide
            · subst h
              exact lit_not_text (by decide) (by decide) _
            · subst h; decide
          · cases h
        · rw [hauto, if_neg (by decide)] at h
          cases h
        · exact logicFrags_not_text q lf hlf s h
        · exact responsesFrags_not_text q s h
        · exact skipFrags_not_text q sf hsf s h
        · exact buttonFrags_not_text q s h
      · intro hne
        rw [if_pos hne]
        rfl

/-- An automatic constant-calculation question with non-empty text. -/
def c10Q : Question :=
  {questionType := str "automatic", fieldName := str "f", questionText := str "Txt", maxCharacters := str "-9", lowerRange := str "-9", upperRange := str "-9", calculationType := CalculationType.CONSTANT, calculationConstantValue := str "5"}

/-- C10 (witness): `c10_automatic_no_text_child` applied to `c10Q`, whose
children hold a calculation but no `<text>` fragment despite the non-empty
question text. -/
theorem c10_automatic_no_text_child_witness :
    questionChildren c10Q =
      some [str "\t\t<calculation type='constant' value='5' />\n"] ∧
    ∀ s ∈ [str "\t\t<calculation type='constant' value='5' />\n"],
      textPfx.isPrefixOf s = false :=
  ⟨by decide, (c10_automatic_no_text_child c10Q _ (by decide)).1 (by decide)⟩

/-! ## C7 — skip-line fixed offsets for `does not contain` -/

/-- `pySplitChar` never returns the empty list. -/
theorem pySplitChar_ne_nil (sep : Char) (s : Str) : pySplitChar sep s ≠ [] := by
  induction s with
  | nil => simp [pySplitChar]
  | cons c rest ih =>
    unfold pySplitChar
    split
    · simp
    · split
      · simp
      · simp

/-- One non-separator step of `pySplitChar`. -/
theorem pySplitChar_cons_ne (sep c : Char) (rest : Str) (hc : c ≠ sep) :
    pySplitChar sep (c :: rest) =
      (c :: (pySplitChar sep rest).headD []) :: (pySplitChar sep rest).tail := by
  cases hr : pySplitChar sep rest with
  | nil => exact absurd hr (pySplitChar_ne_nil sep rest)
  | cons h t =>
    unfold pySplitChar
    rw [if_neg hc, hr]
    simp

/-- One separator step of `pySplitChar`. -/
theorem pySplitChar_cons_eq (sep : Char) (rest : Str) :
    pySplitChar sep (sep :: rest) = [] :: pySplitChar sep rest := by
  cases hr : pySplitChar sep rest with
  | nil => exact absurd hr (pySplitChar_ne_nil sep rest)
  | cons h t =>
    unfold pySplitChar
    rw [if_pos rfl, hr]

/-- Splitting an appended separator-free block prefixes it to the head. -/
theorem pySplitChar_append (sep : Char) (A B : Str) (hA : sep ∉ A) :
    pySplitChar sep (A ++ B) =
      (A ++ (pySplitChar sep B).headD []) :: (pySplitChar sep B).tail := by
  induction A with
  | nil =>
    cases hB : pySplitChar sep B with
    | nil => exact absurd hB (pySplitChar_ne_nil sep B)
    | cons h t => simp [hB]
  | cons c A' ih =>
    have hc : c ≠ sep := fun he => hA (he ▸ List.mem_cons_self c A')
    have hA' : sep ∉ A' := fun hm => hA (List.mem_cons_of_mem c hm)
    simp only [List.cons_append]
    rw [pySplitChar_cons_ne sep c (A' ++ B) hc, ih hA']
    simp

/-- A separator-free string splits into itself. -/
theorem pySplitChar_sepfree (sep : Char) (A : Str) (hA : sep ∉ A) :
    pySplitChar sep A = [A] := by
  have := pySplitChar_append sep A [] hA
  simpa [pySplitChar] using this

/-- Peeling one separator-terminated token off a split. -/
theorem pySplitChar_token (sep : Char) (A rest : Str) (hA : sep ∉ A) :
    pySplitChar sep (A ++ sep :: rest) = A :: pySplitChar sep rest := by
  rw [pySplitChar_append sep A (sep :: rest) hA, pySplitChar_cons_eq sep rest]
  simp

/-- Position scanning distributes over append. -/
theorem idxWhereFrom_append (p : Char → Bool) (A : Str) :
    ∀ (i : Nat) (B : Str),
      idxWhereFrom p i (A ++ B) = idxWhereFrom p i A ++ idxWhereFrom p (i + A.length) B := by
  induction A with
  | nil => intro i B; simp [idxWhereFrom]
  | cons c A' ih =>
    intro i B
    have hstep : ∀ (j : Nat) (s : Str),
        idxWhereFrom p j (c :: s) =
          if p c then j :: idxWhereFrom p (j + 1) s else idxWhereFrom p (j + 1) s :=
      fun j s => rfl
    simp only [List.cons_append, hstep, List.length_cons]
    by_cases hc : p c = true
    · rw [if_pos hc, if_pos hc, ih (i + 1) B,
        show i + 1 + A'.length = i + (A'.length + 1) by omega]
      simp
    · rw [if_neg hc, if_neg hc, ih (i + 1) B,
        show i + 1 + A'.length = i + (A'.length + 1) by omega]

/-- Position scanning of a block with no matching character is empty. -/
theorem idxWhereFrom_none (p : Char → Bool) (A : Str) (h : ∀ c ∈ A, p c = false) :
    ∀ i : Nat, idxWhereFrom p i A = [] := by
  induction A with
  | nil => intro i; rfl
  | cons c A' ih =>
    intro i
    unfold idxWhereFrom
    rw [if_neg (by simp [h c (List.mem_cons_self c A')])]
    exact ih (fun d hd => h d (List.mem_cons_of_mem c hd)) (i + 1)



/-- Characters other than CR and LF pass through the line splitter. -/
theorem splitLinesRaw_cons_other (c : Char) (rest acc : Str)
    (h1 : c ≠ '\r') (h2 : c ≠ '\n') :
    splitLinesRaw (c :: rest) acc = splitLinesRaw rest (c :: acc) := by
  conv_lhs => unfold splitLinesRaw
  split
  · rename_i heq; exact absurd heq (by simp)
  · rename_i heq; injection heq with hc hr; exact absurd hc h1
  · rename_i heq; injection heq with hc hr; exact absurd hc h1
  · rename_i heq; injection heq with hc hr; exact absurd hc h2
  · rename_i heq; injection heq with hc hr; subst hc; subst hr; rfl

/-- A newline-free string is one raw line. -/
theorem splitLinesRaw_pure (s : Str) (h : ∀ c ∈ s, c ≠ '\r' ∧ c ≠ '\n') :
    ∀ acc : Str, splitLinesRaw s acc = [acc.reverse ++ s] := by
  induction s with
  | nil => intro acc; simp [splitLinesRaw]
  | cons c rest ih =>
    intro acc
    have hc := h c (List.mem_cons_self c rest)
    rw [splitLinesRaw_cons_other c rest acc hc.1 hc.2,
      ih (fun d hd => h d (List.mem_cons_of_mem c hd)) (c :: acc)]
    simp

/-- A non-empty newline-free string is its own single line. -/
theorem splitLines_pure (s : Str) (h : ∀ c ∈ s, c ≠ '\r' ∧ c ≠ '\n') (hne : s ≠ []) :
    splitLines s = [s] := by
  unfold splitLines
  rw [splitLinesRaw_pure s h []]
  simp [hne]

/-- The canonical skip line carrying the `does not contain` operator, as the
worksheet author writes it. -/
def canonicalDncLine (f v t : Str) : Str :=
  str "preskip: if " ++ f ++ str " does not contain " ++ v ++ str ", then goto " ++ t

/-- The logic section (the part before the comma) of `canonicalDncLine`. -/
def logicSecDnc (f v : Str) : Str :=
  str "preskip: if " ++ f ++ str " does not contain " ++ v

/-- The space positions of a canonical `does not contain` skip line. -/
theorem spaceIndices_canonical (f v t : Str)
    (hf : ' ' ∉ f) (hv : ' ' ∉ v) (ht : ' ' ∉ t) :
    spaceIndices (canonicalDncLine f v t) =
      [8, 11, 12 + f.length, 17 + f.length, 21 + f.length, 29 + f.length,
       31 + f.length + v.length, 36 + f.length + v.length, 41 + f.length + v.length] := by
  have hf' : ∀ c ∈ f, ((· = ' ') c : Bool) = false := by
    intro c hc
    simp only [decide_eq_false_iff_not]
    exact fun he => hf (he ▸ hc)
  have hv' : ∀ c ∈ v, ((· = ' ') c : Bool) = false := by
    intro c hc
    simp only [decide_eq_false_iff_not]
    exact fun he => hv (he ▸ hc)
  have ht' : ∀ c ∈ t, ((· = ' ') c : Bool) = false := by
    intro c hc
    simp only [decide_eq_false_iff_not]
    exact fun he => ht (he ▸ hc)
  unfold spaceIndices canonicalDncLine
  rw [idxWhereFrom_append, idxWhereFrom_append, idxWhereFrom_append, idxWhereFrom_append,
    idxWhereFrom_append, idxWhereFrom_none _ f hf', idxWhereFrom_none _ v hv',
    idxWhereFrom_none _ t ht']
  simp [idxWhereFrom, str, List.cons.injEq]
  omega


/-- Absence of a character refutes `List.contains`. -/
theorem contains_eq_false_of_not_mem (c : Char) (l : Str) (h : c ∉ l) :
    l.contains c = false := by
  simpa [List.contains] using h

/-- The canonical line splits on the comma into logic section and target tail. -/
theorem pySplitComma_canonical (f v t : Str)
    (hfc : ',' ∉ f) (hvc : ',' ∉ v) (htc : ',' ∉ t) :
    pySplitChar ',' (canonicalDncLine f v t) =
      [logicSecDnc f v, str " then goto " ++ t] := by
  have ha : canonicalDncLine f v t =
      logicSecDnc f v ++ (',' :: (str " then goto " ++ t)) := by
    simp [canonicalDncLine, logicSecDnc, str]
  have hA : ',' ∉ logicSecDnc f v := by
    simp [logicSecDnc, str]
    exact ⟨hfc, hvc⟩
  have hB : ',' ∉ str " then goto " ++ t := by
    simp [str]
    exact htc
  rw [ha, pySplitChar_token ',' (logicSecDnc f v) _ hA, pySplitChar_sepfree ',' _ hB]

/-- The logic section splits on the colon into the skip type and the rest. -/
theorem pySplitColon_canonical (f v : Str) (hfk : ':' ∉ f) (hvk : ':' ∉ v) :
    pySplitChar ':' (logicSecDnc f v) =
      [str "preskip", str " if " ++ f ++ str " does not contain " ++ v] := by
  have ha : logicSecDnc f v =
      str "preskip" ++ (':' :: (str " if " ++ f ++ str " does not contain " ++ v)) := by
    simp [logicSecDnc, str]
  have hB : ':' ∉ str " if " ++ f ++ str " does not contain " ++ v := by
    simp [str]
    exact ⟨hfk, hvk⟩
  rw [ha, pySplitChar_token ':' (str "preskip") _ (by decide),
    pySplitChar_sepfree ':' _ hB]

/-- The logic section splits on spaces into exactly seven tokens. -/
theorem pySplitSpace_canonical (f v : Str) (hfs : ' ' ∉ f) (hvs : ' ' ∉ v) :
    pySplitChar ' ' (logicSecDnc f v) =
      [str "preskip:", str "if", f, str "does", str "not", str "contain", v] := by
  have ha : logicSecDnc f v =
      str "preskip:" ++ (' ' :: (str "if" ++ (' ' :: (f ++ (' ' :: (str "does" ++
        (' ' :: (str "not" ++ (' ' :: (str "contain" ++ (' ' :: v))))))))))) := by
    simp [logicSecDnc, str]
  rw [ha, pySplitChar_token ' ' (str "preskip:") _ (by decide),
    pySplitChar_token ' ' (str "if") _ (by decide),
    pySplitChar_token ' ' f _ hfs,
    pySplitChar_token ' ' (str "does") _ (by decide),
    pySplitChar_token ' ' (str "not") _ (by decide),
    pySplitChar_token ' ' (str "contain") _ (by decide),
    pySplitChar_sepfree ' ' v hvs]

/-- The logic section contains the literal phrase `does not contain`. -/
theorem isSubstr_dnc_canonical (f v : Str) :
    isSubstr (str "does not contain") (logicSecDnc f v) = true := by
  have ha : logicSecDnc f v =
      (str "preskip: if " ++ (f ++ [' '])) ++ (str "does not contain " ++ v) := by
    simp [logicSecDnc, str]
  have hlen : 13 + f.length = (str "preskip: if " ++ (f ++ [' '])).length := by
    simp [str]
    omega
  have hd : (logicSecDnc f v).drop (13 + f.length) = str "does not contain " ++ v := by
    rw [hlen, ha, List.drop_left]
  unfold isSubstr
  rw [List.any_eq_true]
  refine ⟨13 + f.length, List.mem_range.mpr ?_, ?_⟩
  · simp [logicSecDnc, str]
    omega
  · rw [hd, List.isPrefixOf_iff_prefix]
    exact ⟨' ' :: v, by simp [str]⟩

/-- The checked-field slice of the canonical line recovers the field name. -/
theorem slice_field_canonical (f v t : Str) :
    pySlice 12 (12 + f.length) (canonicalDncLine f v t) = f := by
  have h12 : (str "preskip: if ").length = 12 := rfl
  have ha : canonicalDncLine f v t =
      str "preskip: if " ++ (f ++ (str " does not contain " ++ v ++
        str ", then goto " ++ t)) := by
    simp [canonicalDncLine]
  unfold pySlice
  rw [ha, ← h12, List.take_append f.length, List.take_left, List.drop_left]

/-- The response slice of the canonical line recovers the comparison value. -/
theorem slice_value_canonical (f v t : Str) :
    pySlice (29 + f.length + 1) (31 + f.length + v.length - 1)
      (canonicalDncLine f v t) = v := by
  have e1 : 29 + f.length + 1 =
      (str "preskip: if " ++ f ++ str " does not contain ").length := by
    simp [str]
    omega
  have e2 : 31 + f.length + v.length - 1 =
      (str "preskip: if " ++ f ++ str " does not contain ").length + v.length := by
    simp [str]
    omega
  have ha : canonicalDncLine f v t =
      (str "preskip: if " ++ f ++ str " does not contain ") ++
        (v ++ (str ", then goto " ++ t)) := by
    simp [canonicalDncLine, str]
  unfold pySlice
  rw [e1, e2, ha, List.take_append v.length, List.take_left, List.drop_left]

/-- The tail slice of the canonical line recovers the skip target. -/
theorem slice_target_canonical (f v t : Str) :
    pySliceFrom (41 + f.length + v.length + 1) (canonicalDncLine f v t) = t := by
  have e : 41 + f.length + v.length + 1 =
      (str "preskip: if " ++ f ++ str " does not contain " ++ v ++
        str ", then goto ").length := by
    simp [str]
    omega
  have ha : canonicalDncLine f v t =
      (str "preskip: if " ++ f ++ str " does not contain " ++ v ++
        str ", then goto ") ++ t := by
    simp [canonicalDncLine, str]
  unfold pySliceFrom
  rw [e, ha, List.drop_left]


/-- The skip-syntax checker accepts every canonical `does not contain` line. -/
theorem checkSkipSyntax_canonical (ws fieldname f v t : Str)
    (hfs : ' ' ∉ f) (hfc : ',' ∉ f) (hfk : ':' ∉ f) (hfr : '\r' ∉ f) (hfn : '\n' ∉ f)
    (hvs : ' ' ∉ v) (hvc : ',' ∉ v) (hvk : ':' ∉ v) (hvr : '\r' ∉ v) (hvn : '\n' ∉ v)
    (hts : ' ' ∉ t) (htc : ',' ∉ t) (htr : '\r' ∉ t) (htn : '\n' ∉ t) :
    checkSkipSyntax ws (canonicalDncLine f v t) fieldname = Res.nil := by
  have hnr : '\r' ∉ canonicalDncLine f v t := by
    simp [canonicalDncLine, str]
    exact ⟨hfr, hvr, htr⟩
  have hnn : '\n' ∉ canonicalDncLine f v t := by
    simp [canonicalDncLine, str]
    exact ⟨hfn, hvn, htn⟩
  have hnl : ∀ c ∈ canonicalDncLine f v t, c ≠ '\r' ∧ c ≠ '\n' :=
    fun c hc => ⟨fun he => hnr (he ▸ hc), fun he => hnn (he ▸ hc)⟩
  have hne : canonicalDncLine f v t ≠ [] := by
    intro h
    have hl := congrArg List.length h
    simp [canonicalDncLine, str] at hl
  have hcon : (canonicalDncLine f v t).contains ':' = true := by
    have hm : ':' ∈ canonicalDncLine f v t := by simp [canonicalDncLine, str]
    simpa [List.contains] using hm
  have htake : (canonicalDncLine f v t).take
      ((pyFind ':' (canonicalDncLine f v t)).getD 0) = str "preskip" := rfl
  have hparts := pySplitComma_canonical f v t hfc hvc htc
  have hgetd : (pySplitChar ',' (canonicalDncLine f v t)).getD 0 [] = logicSecDnc f v := by
    rw [hparts]
    rfl
  have hlogic := pySplitColon_canonical f v hfk hvk
  have htok := pySplitSpace_canonical f v hfs hvs
  have hdnc := isSubstr_dnc_canonical f v
  have hsp := spaceIndices_canonical f v t hfs hvs hts
  have hgd2 : (spaceIndices (canonicalDncLine f v t)).getD 2 0 = 12 + f.length := by
    rw [hsp]
    rfl
  have hfield := slice_field_canonical f v t
  have hfcontains : f.contains ' ' = false := contains_eq_false_of_not_mem ' ' f hfs
  unfold checkSkipSyntax
  rw [splitLines_pure _ hnl hne]
  simp only [checkSkipSyntaxLoop]
  rw [if_neg (show ¬((!(canonicalDncLine f v t).contains ':') = true) from by
    rw [hcon]; decide)]
  rw [if_pos htake]
  rw [if_neg (show ¬(str "preskip" = str "postskip") from by decide)]
  rw [if_neg (show ¬((pySplitChar ',' (canonicalDncLine f v t)).length ≠ 2) from by
    simp [hparts])]
  rw [hgetd]
  rw [if_neg (show ¬((pySplitChar ':' (logicSecDnc f v)).length ≠ 2) from by simp [hlogic])]
  rw [if_neg (show ¬(((pySplitChar ' ' (logicSecDnc f v)).length ≠ 5 &&
    !isSubstr (str "does not contain") (logicSecDnc f v)) = true) from by simp [hdnc])]
  rw [if_neg (show ¬(((pySplitChar ' ' (logicSecDnc f v)).length ≠ 7 &&
    isSubstr (str "does not contain") (logicSecDnc f v)) = true) from by simp [htok])]
  rw [if_neg (show ¬((spaceIndices (canonicalDncLine f v t)).length < 4) from by
    rw [hsp]; simp)]
  rw [hgd2, hfield]
  rw [if_neg (show ¬(f.contains ' ' = true) from by rw [hfcontains]; decide)]
  rw [if_neg (show ¬((!isSubstr (str "does not contain") (logicSecDnc f v)) = true) from by
    simp [hdnc])]


/-- The emitter extracts field, condition, value and target from a canonical
`does not contain` line at its dedicated fixed offsets. -/
theorem generateSkip_canonical (f v t : Str)
    (hfs : ' ' ∉ f) (hvs : ' ' ∉ v) (hts : ' ' ∉ t) :
    generateSkip (canonicalDncLine f v t) (str "preskip") =
      some (str "\t\t\t<skip fieldname='" ++ f ++ str "' condition = '" ++
        str "does not contain" ++ str "' response='" ++ v ++
        str "' response_type='fixed' skiptofieldname ='" ++ t ++ str "'></skip>") := by
  have hsp := spaceIndices_canonical f v t hfs hvs hts
  have hgd2 : (spaceIndices (canonicalDncLine f v t)).getD 2 0 = 12 + f.length := by
    rw [hsp]
    rfl
  have hgd5 : (spaceIndices (canonicalDncLine f v t)).getD 5 0 = 29 + f.length := by
    rw [hsp]
    rfl
  have hgd6 : (spaceIndices (canonicalDncLine f v t)).getD 6 0 =
      31 + f.length + v.length := by
    rw [hsp]
    rfl
  have hlast : (spaceIndices (canonicalDncLine f v t)).getLastD 0 =
      41 + f.length + v.length := by
    rw [hsp]
    rfl
  simp only [generateSkip]
  rw [if_neg (show ¬(str "preskip" = str "postSkip") from by decide)]
  rw [if_neg (show ¬((spaceIndices (canonicalDncLine f v t)).length < 3) from by
    rw [hsp]; simp)]
  rw [if_pos (show (spaceIndices (canonicalDncLine f v t)).length = 9 from by
    rw [hsp]; rfl)]
  rw [hgd2, hgd5, hgd6, hlast]
  rw [slice_field_canonical f v t, slice_value_canonical f v t, slice_target_canonical f v t]


/-- C7 (counterexample): the checker-accepted line
`preskip: if f does not contain v, t` carries the operator phrase
`does not contain`, yet the emitter's fixed offsets are tuned to the
nine-space canonical layout: on this seven-space line it emits
`condition = 'does'` with `response='no'` instead of recovering the phrase
and the comparison value. -/
theorem c7_offsets_counterexample :
    (checkSkipSyntax (str "s") (str "preskip: if f does not contain v, t")
        (str "q")).err = false ∧
    isSubstr (str "does not contain")
        (str "preskip: if f does not contain v, t") = true ∧
    generateSkip (str "preskip: if f does not contain v, t") (str "preskip") =
      some (str "\t\t\t<skip fieldname='f' condition = 'does' response='no' response_type='fixed' skiptofieldname ='t'></skip>") := by
  decide

/-- C7: for every canonical skip line
`preskip: if <f> does not contain <v>, then goto <t>` whose field, value and
target are free of spaces, commas, colons and newlines, the syntax checker
accepts the line without any diagnostic, and the emitter's dedicated
`does not contain` fixed offsets recover condition `does not contain`,
response `<v>`, checked field `<f>` and target `<t>` in the emitted skip
element. -/
theorem c7_dnc_fixed_offsets (ws fieldname f v t : Str)
    (hfs : ' ' ∉ f) (hfc : ',' ∉ f) (hfk : ':' ∉ f) (hfr : '\r' ∉ f) (hfn : '\n' ∉ f)
    (hvs : ' ' ∉ v) (hvc : ',' ∉ v) (hvk : ':' ∉ v) (hvr : '\r' ∉ v) (hvn : '\n' ∉ v)
    (hts : ' ' ∉ t) (htc : ',' ∉ t) (htr : '\r' ∉ t) (htn : '\n' ∉ t) :
    checkSkipSyntax ws (canonicalDncLine f v t) fieldname = Res.nil ∧
    generateSkip (canonicalDncLine f v t) (str "preskip") =
      some (str "\t\t\t<skip fieldname='" ++ f ++ str "' condition = '" ++
        str "does not contain" ++ str "' response='" ++ v ++
        str "' response_type='fixed' skiptofieldname ='" ++ t ++ str "'></skip>") :=
  ⟨checkSkipSyntax_canonical ws fieldname f v t hfs hfc hfk hfr hfn
      hvs hvc hvk hvr hvn hts htc htr htn,
   generateSkip_canonical f v t hfs hvs hts⟩

/-- C7 at the concrete line `preskip: if f does not contain v, then goto t`. -/
theorem c7_dnc_fixed_offsets_witness :
    checkSkipSyntax (str "s") (canonicalDncLine (str "f") (str "v") (str "t"))
        (str "q") = Res.nil ∧
    generateSkip (canonicalDncLine (str "f") (str "v") (str "t")) (str "preskip") =
      some (str "\t\t\t<skip fieldname='" ++ str "f" ++ str "' condition = '" ++
        str "does not contain" ++ str "' response='" ++ str "v" ++
        str "' response_type='fixed' skiptofieldname ='" ++ str "t" ++
        str "'></skip>") :=
  c7_dnc_fixed_offsets (str "s") (str "q") (str "f") (str "v") (str "t")
    (by decide) (by decide) (by decide) (by decide) (by decide)
    (by decide) (by decide) (by decide) (by decide) (by decide)
    (by decide) (by decide) (by decide) (by decide)

end GiSTX
